import Mathlib

/-!
# XPC demo: the message handlers of the service programs

A shallow embedding of the `handle_message` functions of `service.c`, `demo.c`,
`demos/single-process/demo_simple.c` and `demos/service-based/xpc_service.c`, of their
peer event handlers and accept handlers, of the request functions and `run_client` of
`client.c`, of `send_and_print` of `demos/service-based/xpc_app.c` and `demo_simple.c`,
and of `main` of `main.c`.

The libxpc primitives the handlers call (`xpc_get_type`, `xpc_dictionary_get_string`,
`xpc_dictionary_get_int64`, `xpc_dictionary_create_reply`, `xpc_dictionary_set_*`,
`xpc_connection_send_message`) are external to the repository.  They are modelled
on their documented behaviour: a dictionary is a finite map from string keys to
objects, a typed getter yields NULL (strings) or 0 (integers) when the key is absent
or holds a value of another type, and a reply dictionary starts empty and remembers
the message it answers.

A handler run is recorded as the list of effects it performs, in program order.
C strings hold no NUL character, so `strcmp(x, y) == 0` is equality of strings.
-/

namespace XPCDemo

/-! ## Machine integers -/

/-- The smallest `int64_t`. -/
def INT64_MIN : Int := -(2 ^ 63)

/-- The largest `int64_t`. -/
def INT64_MAX : Int := 2 ^ 63 - 1

/-- Reduction of an integer modulo `2^64` into the signed 64-bit range. -/
def wrap64 (x : Int) : Int := (x + 2 ^ 63) % 2 ^ 64 - 2 ^ 63

/-- The C expression `a + b` on `int64_t` operands. The sum is taken with
two-complement wraparound, as the machine addition does; C itself leaves signed
overflow undefined. -/
def int64_add (a b : Int) : Int := wrap64 (a + b)

/-! ## XPC objects -/

/-- The distinguished error objects delivered to event handlers. -/
inductive XpcError where
  | connectionInvalid
  | connectionInterrupted
  | terminationImminent
  | other (description : String)
  deriving DecidableEq, Repr

/-- An XPC object (`xpc_object_t`), by its type. -/
inductive XpcObject where
  | null
  | bool (b : Bool)
  | int64 (v : Int)
  | uint64 (v : Nat)
  | string (s : String)
  | data (bytes : List Nat)
  | dictionary (entries : List (String × XpcObject))
  | error (e : XpcError)
  | connection (handle : Nat)
  | endpoint (handle : Nat)

/-- The key/value content of a dictionary object. -/
abbrev Dict := List (String × XpcObject)

/-- A connection handle (`xpc_connection_t`) with the process id of its remote end. -/
structure Connection where
  handle : Nat
  peerPid : Int
  deriving DecidableEq, Repr

/-- The identity of the process that runs the handler: what `getpid()` and
`getppid()` return there. -/
structure Proc where
  pid : Int
  ppid : Int
  deriving DecidableEq, Repr

/-- The value stored under a key (`xpc_dictionary_get_value`), if any. -/
def xpc_dictionary_get_value (d : Dict) (key : String) : Option XpcObject :=
  match d with
  | [] => none
  | (k, v) :: rest => if k = key then some v else xpc_dictionary_get_value rest key

/-- The C string stored under a key: NULL (`none`) when the key is absent or its
value is not a string. -/
def xpc_dictionary_get_string (d : Dict) (key : String) : Option String :=
  match xpc_dictionary_get_value d key with
  | some (.string s) => some s
  | _ => none

/-- The `int64_t` stored under a key: 0 when the key is absent or its value is not a
signed integer. -/
def xpc_dictionary_get_int64 (d : Dict) (key : String) : Int :=
  match xpc_dictionary_get_value d key with
  | some (.int64 v) => v
  | _ => 0

/-- Store a value under a key (`xpc_dictionary_set_value`): an existing entry of that
key is replaced, otherwise the entry is added. -/
def xpc_dictionary_set_value (d : Dict) (key : String) (v : XpcObject) : Dict :=
  match d with
  | [] => [(key, v)]
  | (k, w) :: rest =>
    if k = key then (k, v) :: rest else (k, w) :: xpc_dictionary_set_value rest key v

/-- Store a string under a key (`xpc_dictionary_set_string`). -/
def xpc_dictionary_set_string (d : Dict) (key value : String) : Dict :=
  xpc_dictionary_set_value d key (.string value)

/-- Store an `int64_t` under a key (`xpc_dictionary_set_int64`). -/
def xpc_dictionary_set_int64 (d : Dict) (key : String) (value : Int) : Dict :=
  xpc_dictionary_set_value d key (.int64 value)

/-- A reply dictionary: the message it answers and its own key/value content. -/
structure Reply where
  original : XpcObject
  content : Dict

/-- The empty reply bound to the message it answers (`xpc_dictionary_create_reply`). -/
def xpc_dictionary_create_reply (message : XpcObject) : Reply :=
  { original := message, content := [] }

/-- The call `xpc_dictionary_set_string(reply, key, value)` on a reply. -/
def Reply.set_string (r : Reply) (key value : String) : Reply :=
  { r with content := xpc_dictionary_set_string r.content key value }

/-- The call `xpc_dictionary_set_int64(reply, key, value)` on a reply. -/
def Reply.set_int64 (r : Reply) (key : String) (value : Int) : Reply :=
  { r with content := xpc_dictionary_set_int64 r.content key value }

/-! ## Effects -/

/-- The blocks the programs register as event handlers, each named after the file
that writes it, with the connection it captures. What a block does when it is invoked
is given by `Block.run`. -/
inductive Block where
  /-- The block of `handle_new_connection` in `service.c`. -/
  | service_peer_events (peer : Connection)
  /-- The listener block of `main` in `service.c`. -/
  | service_listener
  /-- The block of `handle_new_connection` in `demo.c`. -/
  | demo_peer_events (peer : Connection)
  /-- The listener block of `main` in `demo.c`. -/
  | demo_listener
  /-- The inner block of the listener block of `main` in `demo_simple.c`. -/
  | demo_simple_peer_events (peer : Connection)
  /-- The listener block of `main` in `demo_simple.c`. -/
  | demo_simple_listener
  /-- The block of `connection_handler` in `xpc_service.c`. -/
  | xpc_service_peer_events (peer : Connection)
  /-- The error-handler block of `run_client` in `client.c`. -/
  | client_events
  /-- The reply block of `main` in `main.c`. -/
  | main_reply
  deriving DecidableEq, Repr

/-- What a handler does to the outside world, one constructor per kind of call. -/
inductive Effect where
  /-- A `printf` call, with the formatted text. -/
  | stdout (text : String)
  /-- A `fprintf(stderr, ...)` call, with the formatted text. -/
  | stderr (text : String)
  /-- A call of `print_error(component, ...)`, the helper declared in `xpc_helpers.h`,
  recorded with its component and its formatted message. -/
  | print_error (component message : String)
  /-- A call of `xpc_dictionary_create_reply(message)`. -/
  | create_reply (message : XpcObject)
  /-- A call of `xpc_connection_send_message(conn, reply)`. -/
  | send (conn : Connection) (reply : Reply)
  /-- A call of `xpc_release(reply)`. -/
  | release (reply : Reply)
  /-- A call of `exit(code)`: the process ends and nothing follows. -/
  | exit (code : Int)
  /-- A call of `xpc_connection_set_event_handler(conn, block)`. -/
  | set_event_handler (conn : Connection) (block : Block)
  /-- A call of `xpc_connection_resume(conn)`. -/
  | resume (conn : Connection)
  /-- A call of `xpc_connection_cancel(conn)`. -/
  | cancel (conn : Connection)
  /-- A call of `xpc_connection_send_message_with_reply_sync(conn, message)`. -/
  | send_message_with_reply_sync (conn : Connection) (message : XpcObject)
  /-- A call of `xpc_connection_send_message_with_reply(conn, message, queue, block)`. -/
  | send_message_with_reply (conn : Connection) (message : XpcObject) (block : Block)
  /-- A call of `sleep(seconds)`. -/
  | sleep (seconds : Nat)
  /-- A call of `xpc_connection_create(NULL, NULL)`, with the connection it returns. -/
  | connection_create (conn : Connection)
  /-- A call of `xpc_endpoint_create(listener)`. -/
  | endpoint_create (listener : Connection)
  /-- A call of `xpc_connection_create_from_endpoint(endpoint)`, with the connection it
  returns, if any. -/
  | connection_create_from_endpoint (conn : Option Connection)
  /-- A call of `print_xpc_error(component, error)`, the helper declared in
  `xpc_helpers.h`, recorded with its component and the error object it is given to
  report. -/
  | print_xpc_error (component : String) (error : XpcError)

/-- A trace as the process really performs it: everything after the first `exit` is
cut off. -/
def until_exit : List Effect → List Effect
  | [] => []
  | .exit code :: _ => [.exit code]
  | e :: rest => e :: until_exit rest

/-- The sends of a trace, in order: the connection and the message sent on it. -/
def sends : List Effect → List (Connection × Reply)
  | [] => []
  | .send conn reply :: rest => (conn, reply) :: sends rest
  | _ :: rest => sends rest

/-- The messages for which a trace creates a reply, in order. -/
def created_replies : List Effect → List XpcObject
  | [] => []
  | .create_reply message :: rest => message :: created_replies rest
  | _ :: rest => created_replies rest

/-- The exit codes of a trace (at most one after `until_exit`). -/
def exits : List Effect → List Int
  | [] => []
  | .exit code :: rest => code :: exits rest
  | _ :: rest => exits rest

/-- Modelled from the spec: the helper `print_error` of `xpc_helpers.h`, whose body is
not among the sources. By the dispatch policy of the spec a dropped message has "a
diagnostic surfaced", and `demo_simple.c` and `xpc_service.c` report through this
helper where `service.c` and `demo.c` write to standard error; so a call of it counts
as a diagnostic, with its formatted message as the text. The diagnostics of a trace
are these and the writes to standard error, in order. -/
def diagnostics : List Effect → List String
  | [] => []
  | .stderr text :: rest => text :: diagnostics rest
  | .print_error _ message :: rest => message :: diagnostics rest
  | _ :: rest => diagnostics rest

/-! ## service.c -/

namespace service

/-- The function `handle_message` of `service.c`. -/
def handle_message (self : Proc) (peer : Connection) (message : XpcObject) : List Effect :=
  match message with
  | .dictionary d =>
    match xpc_dictionary_get_string d "type" with
    | none => [.stderr "Message has no type field\n"]
    | some msg_type =>
      let reply := xpc_dictionary_create_reply message
      let branch : Reply × List Effect :=
        if msg_type = "ping" then
          (reply.set_string "response" "pong",
            [.stdout "[Service] Responding with pong\n"])
        else if msg_type = "echo" then
          match xpc_dictionary_get_string d "data" with
          | some data =>
            (reply.set_string "response" data,
              [.stdout ("[Service] Echoing: " ++ data ++ "\n")])
          | none => (reply.set_string "error" "No data to echo", [])
        else if msg_type = "add" then
          let a := xpc_dictionary_get_int64 d "a"
          let b := xpc_dictionary_get_int64 d "b"
          let sum := int64_add a b
          (reply.set_int64 "result" sum,
            [.stdout ("[Service] Adding " ++ toString a ++ " + " ++ toString b ++ " = "
              ++ toString sum ++ "\n")])
        else if msg_type = "info" then
          (((reply.set_int64 "pid" self.pid).set_int64 "ppid" self.ppid).set_string
              "status" "running",
            [.stdout "[Service] Sending service info\n"])
        else
          (reply.set_string "error" "Unknown message type",
            [.stderr ("[Service] Unknown message type: " ++ msg_type ++ "\n")])
      [.stdout ("[Service] Received message of type: " ++ msg_type ++ "\n"),
        .create_reply message] ++ branch.2 ++ [.send peer branch.1]
  | _ => [.stderr "Received non-dictionary message\n"]

end service

/-! ## demo.c -/

namespace demo

/-- The function `handle_message` of `demo.c`. -/
def handle_message (self : Proc) (peer : Connection) (message : XpcObject) : List Effect :=
  match message with
  | .dictionary d =>
    match xpc_dictionary_get_string d "type" with
    | none => [.stderr "Message has no type field\n"]
    | some msg_type =>
      let reply := xpc_dictionary_create_reply message
      let branch : Reply × List Effect :=
        if msg_type = "ping" then
          (reply.set_string "response" "pong",
            [.stdout "[Service] Responding with pong\n"])
        else if msg_type = "echo" then
          match xpc_dictionary_get_string d "data" with
          | some data =>
            (reply.set_string "response" data,
              [.stdout ("[Service] Echoing: " ++ data ++ "\n")])
          | none => (reply.set_string "error" "No data to echo", [])
        else if msg_type = "add" then
          let a := xpc_dictionary_get_int64 d "a"
          let b := xpc_dictionary_get_int64 d "b"
          let sum := int64_add a b
          (reply.set_int64 "result" sum,
            [.stdout ("[Service] Adding " ++ toString a ++ " + " ++ toString b ++ " = "
              ++ toString sum ++ "\n")])
        else if msg_type = "info" then
          (((reply.set_int64 "pid" self.pid).set_int64 "ppid" self.ppid).set_string
              "status" "running",
            [.stdout "[Service] Sending service info\n"])
        else
          (reply.set_string "error" "Unknown message type",
            [.stderr ("[Service] Unknown message type: " ++ msg_type ++ "\n")])
      [.stdout ("[Service] Received message of type: " ++ msg_type ++ "\n"),
        .create_reply message] ++ branch.2 ++ [.send peer branch.1]
  | _ => [.stderr "Received non-dictionary message\n"]

end demo

/-! ## demos/single-process/demo_simple.c -/

namespace demo_simple

/-- The function `handle_message` of `demos/single-process/demo_simple.c`. -/
def handle_message (self : Proc) (peer : Connection) (message : XpcObject) : List Effect :=
  match message with
  | .dictionary d =>
    match xpc_dictionary_get_string d "type" with
    | none => [.print_error "Service" "Message has no type field"]
    | some msg_type =>
      let reply := xpc_dictionary_create_reply message
      let branch : Reply × List Effect :=
        if msg_type = "ping" then
          (reply.set_string "response" "pong",
            [.stdout "[Service] Responding with pong\n"])
        else if msg_type = "echo" then
          match xpc_dictionary_get_string d "data" with
          | some data =>
            (reply.set_string "response" data,
              [.stdout ("[Service] Echoing: " ++ data ++ "\n")])
          | none => (reply.set_string "error" "No data to echo", [])
        else if msg_type = "add" then
          let a := xpc_dictionary_get_int64 d "a"
          let b := xpc_dictionary_get_int64 d "b"
          let sum := int64_add a b
          (reply.set_int64 "result" sum,
            [.stdout ("[Service] Adding " ++ toString a ++ " + " ++ toString b ++ " = "
              ++ toString sum ++ "\n")])
        else if msg_type = "info" then
          (((reply.set_int64 "pid" self.pid).set_int64 "ppid" self.ppid).set_string
              "status" "running",
            [.stdout "[Service] Sending service info\n"])
        else
          (reply.set_string "error" "Unknown message type",
            [.print_error "Service" ("Unknown message type: " ++ msg_type)])
      [.stdout ("[Service] Received message of type: " ++ msg_type ++ "\n"),
        .create_reply message] ++ branch.2 ++ [.send peer branch.1]
  | _ => [.print_error "Service" "Received non-dictionary message"]

end demo_simple

/-! ## demos/service-based/xpc_service.c -/

namespace xpc_service

/-- The function `handle_message` of `demos/service-based/xpc_service.c`. The
"shutdown" branch sends its reply itself and calls `exit(0)`, so the common send and
release at the end of the function are not reached on it. -/
def handle_message (self : Proc) (peer : Connection) (message : XpcObject) : List Effect :=
  match message with
  | .dictionary d =>
    match xpc_dictionary_get_string d "type" with
    | none => [.print_error "Service" "Message has no type field"]
    | some msg_type =>
      let reply := xpc_dictionary_create_reply message
      let branch : Reply × List Effect :=
        if msg_type = "ping" then
          (reply.set_string "response" "pong",
            [.stdout "[Service] Responding with pong\n"])
        else if msg_type = "echo" then
          match xpc_dictionary_get_string d "data" with
          | some data =>
            (reply.set_string "response" data,
              [.stdout ("[Service] Echoing: " ++ data ++ "\n")])
          | none => (reply.set_string "error" "No data to echo", [])
        else if msg_type = "add" then
          let a := xpc_dictionary_get_int64 d "a"
          let b := xpc_dictionary_get_int64 d "b"
          let sum := int64_add a b
          (reply.set_int64 "result" sum,
            [.stdout ("[Service] Adding " ++ toString a ++ " + " ++ toString b ++ " = "
              ++ toString sum ++ "\n")])
        else if msg_type = "info" then
          (((reply.set_int64 "pid" self.pid).set_int64 "ppid" self.ppid).set_string
              "status" "running",
            [.stdout "[Service] Sending service info\n"])
        else if msg_type = "shutdown" then
          let reply := reply.set_string "response" "shutting down"
          (reply,
            [.stdout "[Service] Shutdown requested\n", .send peer reply, .exit 0])
        else
          (reply.set_string "error" "Unknown message type",
            [.print_error "Service" ("Unknown message type: " ++ msg_type)])
      until_exit
        ([.stdout ("[Service] Received message of type: " ++ msg_type ++ "\n"),
        .create_reply message] ++ branch.2 ++ [.send peer branch.1, .release branch.1])
  | _ => [.print_error "Service" "Received non-dictionary message"]

end xpc_service

/-- The four copies of `handle_message`, in the order `service.c`, `demo.c`,
`demo_simple.c`, `xpc_service.c`. -/
def handlers : List (Proc → Connection → XpcObject → List Effect) :=
  [service.handle_message, demo.handle_message, demo_simple.handle_message,
    xpc_service.handle_message]

/-! ## client.c -/

namespace client

/-- The message `send_add(connection, a, b)` builds before sending it. -/
def send_add_message (a b : Int) : Dict :=
  let message : Dict := []
  let message := xpc_dictionary_set_string message "type" "add"
  let message := xpc_dictionary_set_int64 message "a" a
  xpc_dictionary_set_int64 message "b" b

end client

/-! ## Event handlers of the service side -/

/-- What the process cannot compute itself and asks the XPC runtime for. -/
structure Runtime where
  /-- The result of `xpc_connection_get_pid` for the connection of a given handle. -/
  peer_pid : Nat → Int
  /-- The text `printf` produces for `%p` of `XPC_TYPE_CONNECTION`. -/
  type_connection_ptr : String

/-- The text an error object holds under `XPC_ERROR_KEY_DESCRIPTION`. -/
def XpcError.description : XpcError → String
  | .connectionInvalid => "Connection invalid"
  | .connectionInterrupted => "Connection interrupted"
  | .terminationImminent => "Process is being terminated"
  | .other description => description

/-- The connection object delivered to a listener, as the `xpc_connection_t` the
accept handler casts it to. -/
def Runtime.connection (rt : Runtime) (handle : Nat) : Connection :=
  { handle := handle, peerPid := rt.peer_pid handle }

namespace service

/-- The function `handle_peer_event` of `service.c`. -/
def handle_peer_event (self : Proc) (peer : Connection) (event : XpcObject) : List Effect :=
  match event with
  | .error e =>
    if e = .connectionInvalid then [.stdout "[Service] Client disconnected\n"]
    else if e = .terminationImminent then [.stdout "[Service] Termination imminent\n"]
    else [.stdout ("[Service] Error: " ++ e.description ++ "\n")]
  | .dictionary _ => handle_message self peer event
  | _ => []

/-- The function `handle_new_connection` of `service.c`. -/
def handle_new_connection (peer : Connection) : List Effect :=
  [.stdout ("[Service] New connection from PID: " ++ toString peer.peerPid ++ "\n"),
    .set_event_handler peer (.service_peer_events peer),
    .resume peer]

/-- The listener block of `main` in `service.c`. -/
def listener_block (rt : Runtime) (peer : XpcObject) : List Effect :=
  match peer with
  | .connection handle => handle_new_connection (rt.connection handle)
  | .error _ => [.stdout "[Service] Listener error\n"]
  | _ => []

end service

namespace demo

/-- The function `handle_peer_event` of `demo.c`. -/
def handle_peer_event (self : Proc) (peer : Connection) (event : XpcObject) : List Effect :=
  match event with
  | .error e =>
    if e = .connectionInvalid then [.stdout "[Service] Client disconnected\n"]
    else if e = .terminationImminent then [.stdout "[Service] Termination imminent\n"]
    else []
  | .dictionary _ => handle_message self peer event
  | _ => []

/-- The function `handle_new_connection` of `demo.c`. -/
def handle_new_connection (rt : Runtime) (peer : Connection) : List Effect :=
  [.stdout "[Service] New connection attempt...\n",
    .stdout ("[Service] Peer type: " ++ rt.type_connection_ptr ++ "\n"),
    .stdout ("[Service] New connection from PID: " ++ toString peer.peerPid ++ "\n"),
    .set_event_handler peer (.demo_peer_events peer),
    .resume peer,
    .stdout "[Service] Connection resumed\n"]

/-- The listener block of `main` in `demo.c`. -/
def listener_block (rt : Runtime) (peer : XpcObject) : List Effect :=
  match peer with
  | .connection handle => handle_new_connection rt (rt.connection handle)
  | _ => []

end demo

namespace demo_simple

/-- The function `handle_peer_event` of `demo_simple.c`. -/
def handle_peer_event (self : Proc) (peer : Connection) (event : XpcObject) : List Effect :=
  match event with
  | .error e =>
    if e = .connectionInvalid then [.stdout "[Service] Client disconnected\n"]
    else if e = .terminationImminent then [.stdout "[Service] Termination imminent\n"]
    else []
  | .dictionary _ => handle_message self peer event
  | _ => []

/-- The listener block of `main` in `demo_simple.c`. -/
def listener_block (rt : Runtime) (peer : XpcObject) : List Effect :=
  match peer with
  | .connection handle =>
    [.stdout "[Service] New connection established\n",
      .set_event_handler (rt.connection handle)
        (.demo_simple_peer_events (rt.connection handle)),
      .resume (rt.connection handle)]
  | _ => []

end demo_simple

namespace xpc_service

/-- The function `handle_peer_event` of `xpc_service.c`. -/
def handle_peer_event (self : Proc) (peer : Connection) (event : XpcObject) : List Effect :=
  match event with
  | .error e =>
    if e = .connectionInvalid then [.stdout "[Service] Client disconnected\n"]
    else if e = .terminationImminent then [.stdout "[Service] Termination imminent\n"]
    else [.stdout "[Service] Error on connection\n"]
  | .dictionary _ => handle_message self peer event
  | _ => [.print_error "Service" "Unexpected event type"]

/-- The function `connection_handler` of `xpc_service.c`, which `xpc_main` calls for
each new connection. -/
def connection_handler (peer : Connection) : List Effect :=
  [.stdout ("[Service] New connection established from PID: " ++ toString peer.peerPid
      ++ "\n"),
    .set_event_handler peer (.xpc_service_peer_events peer),
    .resume peer]

end xpc_service

/-- The four copies of `handle_peer_event`, in the order of `handlers`. -/
def peer_event_handlers : List (Proc → Connection → XpcObject → List Effect) :=
  [service.handle_peer_event, demo.handle_peer_event, demo_simple.handle_peer_event,
    xpc_service.handle_peer_event]

namespace client

/-- The error-handler block of `run_client` in `client.c`. -/
def events_block (event : XpcObject) : List Effect :=
  match event with
  | .error e =>
    if e = .connectionInvalid then [.stderr "[Client] Connection invalid\n"]
    else if e = .connectionInterrupted then [.stderr "[Client] Connection interrupted\n"]
    else [.stderr "[Client] Connection error\n"]
  | _ => []

end client

namespace client

/-- The message `send_ping(connection)` builds before sending it. -/
def send_ping_message : Dict :=
  let message : Dict := []
  xpc_dictionary_set_string message "type" "ping"

/-- The message `send_echo(connection, text)` builds before sending it. -/
def send_echo_message (text : String) : Dict :=
  let message : Dict := []
  let message := xpc_dictionary_set_string message "type" "echo"
  xpc_dictionary_set_string message "data" text

/-- The message `send_info(connection)` builds before sending it. -/
def send_info_message : Dict :=
  let message : Dict := []
  xpc_dictionary_set_string message "type" "info"

/-- The function `send_ping` of `client.c`. The argument `reply_sync` is what
`xpc_connection_send_message_with_reply_sync` returns: a reply dictionary or an
error object. -/
def send_ping (reply_sync : Connection → XpcObject → Except XpcError Dict)
    (connection : Connection) : List Effect :=
  let message := XpcObject.dictionary send_ping_message
  [.stdout "[Client] Sending ping...\n",
    .send_message_with_reply_sync connection message] ++
  match reply_sync connection message with
  | .error _ => [.stderr "[Client] Error sending ping\n"]
  | .ok reply =>
    let response := xpc_dictionary_get_string reply "response"
    [.stdout ("[Client] Received: " ++ response.getD "(no response)" ++ "\n\n")]

/-- The function `send_echo` of `client.c`. -/
def send_echo (reply_sync : Connection → XpcObject → Except XpcError Dict)
    (connection : Connection) (text : String) : List Effect :=
  let message := XpcObject.dictionary (send_echo_message text)
  [.stdout ("[Client] Sending echo with text: '" ++ text ++ "'\n"),
    .send_message_with_reply_sync connection message] ++
  match reply_sync connection message with
  | .error _ => [.stderr "[Client] Error sending echo\n"]
  | .ok reply =>
    match xpc_dictionary_get_string reply "response" with
    | some response => [.stdout ("[Client] Echo response: " ++ response ++ "\n\n")]
    | none =>
      match xpc_dictionary_get_string reply "error" with
      | some error => [.stderr ("[Client] Error: " ++ error ++ "\n\n")]
      | none => []

/-- The function `send_add` of `client.c`. -/
def send_add (reply_sync : Connection → XpcObject → Except XpcError Dict)
    (connection : Connection) (a b : Int) : List Effect :=
  let message := XpcObject.dictionary (send_add_message a b)
  [.stdout ("[Client] Sending add request: " ++ toString a ++ " + " ++ toString b ++ "\n"),
    .send_message_with_reply_sync connection message] ++
  match reply_sync connection message with
  | .error _ => [.stderr "[Client] Error sending add\n"]
  | .ok reply =>
    let result := xpc_dictionary_get_int64 reply "result"
    [.stdout ("[Client] Result: " ++ toString result ++ "\n\n")]

/-- The function `send_info` of `client.c`. -/
def send_info (reply_sync : Connection → XpcObject → Except XpcError Dict)
    (connection : Connection) : List Effect :=
  let message := XpcObject.dictionary send_info_message
  [.stdout "[Client] Requesting service info...\n",
    .send_message_with_reply_sync connection message] ++
  match reply_sync connection message with
  | .error _ => [.stderr "[Client] Error requesting info\n"]
  | .ok reply =>
    let pid := xpc_dictionary_get_int64 reply "pid"
    let ppid := xpc_dictionary_get_int64 reply "ppid"
    let status := xpc_dictionary_get_string reply "status"
    [.stdout ("[Client] Service PID: " ++ toString pid ++ "\n"),
      .stdout ("[Client] Service PPID: " ++ toString ppid ++ "\n"),
      .stdout ("[Client] Service Status: " ++ status.getD "unknown" ++ "\n\n")]

/-- The function `run_client` of `client.c`. The argument `created` is what
`xpc_connection_create_from_endpoint` returns, NULL being `none`. -/
def run_client (self : Proc) (reply_sync : Connection → XpcObject → Except XpcError Dict)
    (created : Option Connection) : List Effect :=
  [.stdout ("[Client] Starting (PID: " ++ toString self.pid ++ ")\n"),
    .stdout "[Client] Creating connection from endpoint...\n",
    .connection_create_from_endpoint created] ++
  match created with
  | none => [.stderr "[Client] Failed to create connection from endpoint\n", .exit 1]
  | some connection =>
    [.set_event_handler connection .client_events,
      .resume connection,
      .stdout "[Client] Connection established\n\n"] ++
    send_ping reply_sync connection ++
    send_echo reply_sync connection "Hello, XPC!" ++
    send_add reply_sync connection 42 23 ++
    send_info reply_sync connection ++
    send_echo reply_sync connection "Testing inter-process communication" ++
    send_add reply_sync connection 100 200 ++
    send_ping reply_sync connection ++
    [.stdout "[Client] Demo complete. Cleaning up...\n",
      .cancel connection,
      .sleep 1]

end client

/-! ## main.c -/

namespace main_c

/-- The function `main` of `main.c`. The arguments are the connections the two
creation calls return. -/
def main (connection new_connection : Connection) : List Effect :=
  [.connection_create connection,
    .endpoint_create connection,
    .connection_create_from_endpoint (some new_connection),
    .send_message_with_reply new_connection (.dictionary []) .main_reply]

end main_c

/-- What a registered block does with the event it is invoked on. -/
def Block.run (self : Proc) (rt : Runtime) : Block → XpcObject → List Effect
  | .service_peer_events peer, event => service.handle_peer_event self peer event
  | .service_listener, event => service.listener_block rt event
  | .demo_peer_events peer, event =>
    .stdout "[Service] Received event in peer handler\n" ::
      demo.handle_peer_event self peer event
  | .demo_listener, event => demo.listener_block rt event
  | .demo_simple_peer_events peer, event => demo_simple.handle_peer_event self peer event
  | .demo_simple_listener, event => demo_simple.listener_block rt event
  | .xpc_service_peer_events peer, event => xpc_service.handle_peer_event self peer event
  | .client_events, event => client.events_block event
  | .main_reply, _ => [.stdout "Received reply\n"]

/-- The calls of a trace that act on the state of a connection: registering a
handler, resuming and cancelling, in order. -/
def connection_ops : List Effect → List Effect
  | [] => []
  | .set_event_handler conn block :: rest =>
    .set_event_handler conn block :: connection_ops rest
  | .resume conn :: rest => .resume conn :: connection_ops rest
  | .cancel conn :: rest => .cancel conn :: connection_ops rest
  | _ :: rest => connection_ops rest

/-- The requests a trace sends: the calls of
`xpc_connection_send_message_with_reply_sync` and
`xpc_connection_send_message_with_reply`, in order. -/
def requests : List Effect → List Effect
  | [] => []
  | .send_message_with_reply_sync conn message :: rest =>
    .send_message_with_reply_sync conn message :: requests rest
  | .send_message_with_reply conn message block :: rest =>
    .send_message_with_reply conn message block :: requests rest
  | _ :: rest => requests rest

/-- The listener blocks of the programs that register one: `service.c`, `demo.c` and
`demo_simple.c`. -/
def listener_blocks : List (Runtime → XpcObject → List Effect) :=
  [service.listener_block, demo.listener_block, demo_simple.listener_block]

/-! ## service.c over object memory

The run of `handle_message` once more, this time with the XPC objects held in a memory
of cells addressed by handle, so that the object each call reads or writes is explicit.
-/

/-- The XPC objects of the process: the next free handle and the object each handle
refers to. -/
structure Memory where
  next : Nat
  cell : Nat → Option XpcObject

namespace Memory

/-- The key/value content of the object at a handle; an object that is not a
dictionary has none. -/
def content (mem : Memory) (object : Nat) : Dict :=
  match mem.cell object with
  | some (.dictionary d) => d
  | _ => []

/-- The call `xpc_dictionary_create_reply(message)`: a new, empty dictionary at the
next free handle. -/
def create_reply (mem : Memory) (_message : Nat) : Nat × Memory :=
  (mem.next,
    { next := mem.next + 1,
      cell := fun h => if h = mem.next then some (.dictionary []) else mem.cell h })

/-- The call `xpc_dictionary_set_string(object, key, value)`: only the cell of
`object` changes. -/
def set_string (mem : Memory) (object : Nat) (key value : String) : Memory :=
  let updated := XpcObject.dictionary (xpc_dictionary_set_string (mem.content object) key value)
  { next := mem.next, cell := fun h => if h = object then some updated else mem.cell h }

/-- The call `xpc_dictionary_set_int64(object, key, value)`: only the cell of
`object` changes. -/
def set_int64 (mem : Memory) (object : Nat) (key : String) (value : Int) : Memory :=
  let updated := XpcObject.dictionary (xpc_dictionary_set_int64 (mem.content object) key value)
  { next := mem.next, cell := fun h => if h = object then some updated else mem.cell h }

/-- The reply as it stands in memory when it is sent: the message it answers and its
content. -/
def reply_sent (mem : Memory) (message reply : Nat) : Reply :=
  { original := (mem.cell message).getD .null, content := mem.content reply }

end Memory

namespace service

/-- The function `handle_message` of `service.c` on object memory: `message` is the
handle of the inbound object, and the result is the memory after the call with the
trace of the call. -/
def handle_message_in (self : Proc) (peer : Connection) (message : Nat) (mem : Memory) :
    Memory × List Effect :=
  match mem.cell message with
  | some (.dictionary _) =>
    match xpc_dictionary_get_string (mem.content message) "type" with
    | none => (mem, [.stderr "Message has no type field\n"])
    | some msg_type =>
      let created := mem.create_reply message
      let reply := created.1
      let mem := created.2
      let branch : Memory × List Effect :=
        if msg_type = "ping" then
          (mem.set_string reply "response" "pong",
            [.stdout "[Service] Responding with pong\n"])
        else if msg_type = "echo" then
          match xpc_dictionary_get_string (mem.content message) "data" with
          | some data =>
            (mem.set_string reply "response" data,
              [.stdout ("[Service] Echoing: " ++ data ++ "\n")])
          | none => (mem.set_string reply "error" "No data to echo", [])
        else if msg_type = "add" then
          let a := xpc_dictionary_get_int64 (mem.content message) "a"
          let b := xpc_dictionary_get_int64 (mem.content message) "b"
          let sum := int64_add a b
          (mem.set_int64 reply "result" sum,
            [.stdout ("[Service] Adding " ++ toString a ++ " + " ++ toString b ++ " = "
              ++ toString sum ++ "\n")])
        else if msg_type = "info" then
          (((mem.set_int64 reply "pid" self.pid).set_int64 reply "ppid" self.ppid).set_string
              reply "status" "running",
            [.stdout "[Service] Sending service info\n"])
        else
          (mem.set_string reply "error" "Unknown message type",
            [.stderr ("[Service] Unknown message type: " ++ msg_type ++ "\n")])
      (branch.1,
        [.stdout ("[Service] Received message of type: " ++ msg_type ++ "\n"),
          .create_reply ((mem.cell message).getD .null)] ++ branch.2 ++
        [.send peer (branch.1.reply_sent message reply)])
  | _ => (mem, [.stderr "Received non-dictionary message\n"])

end service

/-- The memory that holds one object, at handle 0. -/
def Memory.single (object : XpcObject) : Memory :=
  { next := 1, cell := fun h => if h = 0 then some object else none }

/-- The keys of a dictionary, in order. -/
def keys (d : Dict) : List String := d.map Prod.fst

/-- The contents of the replies a trace sends, in order. -/
def reply_contents (trace : List Effect) : List Dict :=
  (sends trace).map fun sent => sent.2.content

/-- The key sets the branches of `handle_message` write into a reply: "response"
(ping, echo, shutdown), "error" (echo without data, unknown type), "result" (add) and
"pid", "ppid", "status" (info). -/
def handler_keys : List (List String) :=
  [["response"], ["error"], ["result"], ["pid", "ppid", "status"]]

/-! ## The clients that print any reply -/

namespace xpc_app

/-- The function `send_and_print` of `demos/service-based/xpc_app.c`. The argument
`reply_sync` is what `xpc_connection_send_message_with_reply_sync` returns: a reply
dictionary or an error object. -/
def send_and_print (reply_sync : Connection → XpcObject → Except XpcError Dict)
    (conn : Connection) (message : XpcObject) (desc : String) : List Effect :=
  [.stdout ("[Client] Sending: " ++ desc ++ "\n"),
    .send_message_with_reply_sync conn message] ++
  (match reply_sync conn message with
  | .error e =>
    if e = .connectionInvalid then [.stderr "[Client] Error: Connection invalid\n"]
    else if e = .connectionInterrupted then
      [.stderr "[Client] Error: Connection interrupted\n"]
    else [.stderr "[Client] Error: Request failed\n"]
  | .ok reply =>
    let response := xpc_dictionary_get_string reply "response"
    let error := xpc_dictionary_get_string reply "error"
    let result := xpc_dictionary_get_int64 reply "result"
    let pid := xpc_dictionary_get_int64 reply "pid"
    match response with
    | some response => [.stdout ("[Client] Response: " ++ response ++ "\n")]
    | none =>
      match error with
      | some error => [.stderr ("[Client] Error: " ++ error ++ "\n")]
      | none =>
        if result ≠ 0 ∨ (xpc_dictionary_get_value reply "result").isSome then
          [.stdout ("[Client] Result: " ++ toString result ++ "\n")]
        else if pid ≠ 0 then
          let ppid := xpc_dictionary_get_int64 reply "ppid"
          let status := xpc_dictionary_get_string reply "status"
          [.stdout ("[Client] Service PID: " ++ toString pid ++ ", PPID: " ++ toString ppid
            ++ ", Status: " ++ status.getD "unknown" ++ "\n")]
        else []) ++
  [.stdout "\n"] ++
  (match reply_sync conn message with
  | .error _ => []
  | .ok reply => [.release { original := message, content := reply }])

end xpc_app

namespace demo_simple

/-- The function `send_and_print` of `demos/single-process/demo_simple.c`. -/
def send_and_print (reply_sync : Connection → XpcObject → Except XpcError Dict)
    (conn : Connection) (message : XpcObject) (desc : String) : List Effect :=
  [.stdout ("[Client] Sending: " ++ desc ++ "\n"),
    .send_message_with_reply_sync conn message] ++
  (match reply_sync conn message with
  | .error e => [.print_xpc_error "Client" e]
  | .ok reply =>
    let response := xpc_dictionary_get_string reply "response"
    let error := xpc_dictionary_get_string reply "error"
    let result := xpc_dictionary_get_int64 reply "result"
    let pid := xpc_dictionary_get_int64 reply "pid"
    match response with
    | some response => [.stdout ("[Client] Response: " ++ response ++ "\n")]
    | none =>
      match error with
      | some error => [.stderr ("[Client] Error: " ++ error ++ "\n")]
      | none =>
        if result ≠ 0 ∨ (xpc_dictionary_get_value reply "result").isSome then
          [.stdout ("[Client] Result: " ++ toString result ++ "\n")]
        else if pid ≠ 0 then
          let status := xpc_dictionary_get_string reply "status"
          [.stdout ("[Client] Service PID: " ++ toString pid ++ ", Status: "
            ++ status.getD "unknown" ++ "\n")]
        else []) ++
  [.stdout "\n"]

end demo_simple

/-! ## The synchronous round trip -/

/-- What `xpc_connection_send_message_with_reply_sync` returns to a client whose
message is handled by `hm` on the service side, by the contract of the transport: the
content of the reply the handler sends on the peer connection, or the invalid-
connection error when the handler sends no reply there. -/
def round_trip (hm : Proc → Connection → XpcObject → List Effect) (self : Proc)
    (peer : Connection) (_connection : Connection) (message : XpcObject) :
    Except XpcError Dict :=
  match sends (hm self peer message) with
  | (conn, reply) :: _ => if conn = peer then .ok reply.content else .error .connectionInvalid
  | [] => .error .connectionInvalid

/-! ## The lifecycle order of a connection -/

/-- Where a connection handle stands in the lifecycle of the spec: created, with a
handler registered, resumed, or cancelled. -/
inductive Lifecycle where
  | created
  | registered
  | resumed
  | cancelled
  deriving DecidableEq, Repr

/-- One step of the lifecycle order of a connection `conn`: a handler is registered
before the connection is resumed, the connection is resumed before a message is sent
on it, and no message is sent on it after it is cancelled. A call that breaks the
order yields `none`; calls on other connections do not count. -/
def Lifecycle.step (conn : Connection) (state : Lifecycle) : Effect → Option Lifecycle
  | .set_event_handler c _ =>
    if c = conn then (if state = .created then some .registered else some state)
    else some state
  | .resume c =>
    if c = conn then
      (if state = .created then none
       else if state = .registered then some .resumed else some state)
    else some state
  | .cancel c => if c = conn then some .cancelled else some state
  | .send c _ => if c = conn then (if state = .resumed then some state else none)
    else some state
  | .send_message_with_reply_sync c _ =>
    if c = conn then (if state = .resumed then some state else none) else some state
  | .send_message_with_reply c _ _ =>
    if c = conn then (if state = .resumed then some state else none) else some state
  | _ => some state

/-- The lifecycle state of `conn` after a trace, `none` if the trace breaks the order. -/
def Lifecycle.run (conn : Connection) : Lifecycle → List Effect → Option Lifecycle
  | state, [] => some state
  | state, e :: rest =>
    match Lifecycle.step conn state e with
    | some next => Lifecycle.run conn next rest
    | none => none

/-- Whether a trace keeps the lifecycle order on `conn`, starting from a freshly
created connection. -/
def lifecycle_ok (conn : Connection) (trace : List Effect) : Bool :=
  (Lifecycle.run conn .created trace).isSome

/-! ## Facts about 64-bit wraparound -/

theorem wrap64_lower (x : Int) : INT64_MIN ≤ wrap64 x := by
  unfold wrap64 INT64_MIN
  have h := Int.emod_nonneg (x + 2 ^ 63) (show (2 : Int) ^ 64 ≠ 0 by norm_num)
  omega

theorem wrap64_upper (x : Int) : wrap64 x ≤ INT64_MAX := by
  unfold wrap64 INT64_MAX
  have h := Int.emod_lt_of_pos (x + 2 ^ 63) (show (0 : Int) < 2 ^ 64 by norm_num)
  omega

theorem wrap64_congr (x : Int) : (2 : Int) ^ 64 ∣ wrap64 x - x := by
  unfold wrap64
  have h := Int.emod_add_ediv (x + 2 ^ 63) (2 ^ 64)
  exact ⟨-((x + 2 ^ 63) / 2 ^ 64), by linarith⟩

theorem wrap64_of_range (x : Int) (hlo : INT64_MIN ≤ x) (hhi : x ≤ INT64_MAX) :
    wrap64 x = x := by
  unfold wrap64
  unfold INT64_MIN at hlo
  unfold INT64_MAX at hhi
  rw [Int.emod_eq_of_lt (by omega) (by omega)]
  omega

theorem wrap64_add_left (x y : Int) : wrap64 (wrap64 x + y) = wrap64 (x + y) := by
  obtain ⟨k, hk⟩ := wrap64_congr x
  have hx : wrap64 x = x + 2 ^ 64 * k := by linarith
  rw [hx]
  unfold wrap64
  have : x + 2 ^ 64 * k + y + 2 ^ 63 = (x + y + 2 ^ 63) + 2 ^ 64 * k := by ring
  rw [this, Int.add_mul_emod_self_left]

theorem wrap64_add_right (x y : Int) : wrap64 (x + wrap64 y) = wrap64 (x + y) := by
  rw [add_comm x (wrap64 y), wrap64_add_left, add_comm]

/-! ## The add branch and the message of `send_add` -/

theorem send_add_message_type (a b : Int) :
    xpc_dictionary_get_string (client.send_add_message a b) "type" = some "add" := by
  simp [client.send_add_message, xpc_dictionary_get_string, xpc_dictionary_get_value,
    xpc_dictionary_set_string, xpc_dictionary_set_int64, xpc_dictionary_set_value]

theorem send_add_message_a (a b : Int) :
    xpc_dictionary_get_value (client.send_add_message a b) "a" = some (.int64 a) := by
  simp [client.send_add_message, xpc_dictionary_get_value,
    xpc_dictionary_set_string, xpc_dictionary_set_int64, xpc_dictionary_set_value]

theorem send_add_message_b (a b : Int) :
    xpc_dictionary_get_value (client.send_add_message a b) "b" = some (.int64 b) := by
  simp [client.send_add_message, xpc_dictionary_get_value,
    xpc_dictionary_set_string, xpc_dictionary_set_int64, xpc_dictionary_set_value]

theorem sends_add (self : Proc) (peer : Connection) (d : Dict)
    (htype : xpc_dictionary_get_string d "type" = some "add") :
    ∀ hm ∈ handlers, sends (hm self peer (.dictionary d)) =
      [(peer, { original := .dictionary d,
                content := [("result", .int64
                  (wrap64 (xpc_dictionary_get_int64 d "a" + xpc_dictionary_get_int64 d "b")))] })] := by
  intro hm hmem
  simp only [handlers, List.mem_cons, List.mem_singleton, List.not_mem_nil, or_false] at hmem
  rcases hmem with rfl | rfl | rfl | rfl <;>
    simp [service.handle_message, demo.handle_message, demo_simple.handle_message,
      xpc_service.handle_message, sends, until_exit, Reply.set_string, Reply.set_int64,
      xpc_dictionary_create_reply, xpc_dictionary_set_string, xpc_dictionary_set_int64,
      xpc_dictionary_set_value, htype, int64_add]

theorem get_int64_of_value (d : Dict) (key : String) (v : Int)
    (h : xpc_dictionary_get_value d key = some (.int64 v)) :
    xpc_dictionary_get_int64 d key = v := by
  simp [xpc_dictionary_get_int64, h]

theorem sends_send_add_message (self : Proc) (peer : Connection) (a b : Int) :
    ∀ hm ∈ handlers, sends (hm self peer (.dictionary (client.send_add_message a b))) =
      [(peer, { original := .dictionary (client.send_add_message a b),
                content := [("result", .int64 (wrap64 (a + b)))] })] := by
  intro hm hmem
  rw [sends_add self peer _ (send_add_message_type a b) hm hmem,
    get_int64_of_value _ _ _ (send_add_message_a a b),
    get_int64_of_value _ _ _ (send_add_message_b a b)]

/-! ## The echo branch -/

theorem sends_echo_data (self : Proc) (peer : Connection) (d : Dict) (s : String)
    (htype : xpc_dictionary_get_string d "type" = some "echo")
    (hdata : xpc_dictionary_get_string d "data" = some s) :
    ∀ hm ∈ handlers, sends (hm self peer (.dictionary d)) =
      [(peer, { original := .dictionary d, content := [("response", .string s)] })] := by
  intro hm hmem
  simp only [handlers, List.mem_cons, List.mem_singleton, List.not_mem_nil, or_false] at hmem
  rcases hmem with rfl | rfl | rfl | rfl <;>
    simp [service.handle_message, demo.handle_message, demo_simple.handle_message,
      xpc_service.handle_message, sends, until_exit, Reply.set_string, Reply.set_int64,
      xpc_dictionary_create_reply, xpc_dictionary_set_string, xpc_dictionary_set_int64,
      xpc_dictionary_set_value, htype, hdata]

theorem sends_echo_no_data (self : Proc) (peer : Connection) (d : Dict)
    (htype : xpc_dictionary_get_string d "type" = some "echo")
    (hdata : xpc_dictionary_get_string d "data" = none) :
    ∀ hm ∈ handlers, sends (hm self peer (.dictionary d)) =
      [(peer, { original := .dictionary d,
                content := [("error", .string "No data to echo")] })] := by
  intro hm hmem
  simp only [handlers, List.mem_cons, List.mem_singleton, List.not_mem_nil, or_false] at hmem
  rcases hmem with rfl | rfl | rfl | rfl <;>
    simp [service.handle_message, demo.handle_message, demo_simple.handle_message,
      xpc_service.handle_message, sends, until_exit, Reply.set_string, Reply.set_int64,
      xpc_dictionary_create_reply, xpc_dictionary_set_string, xpc_dictionary_set_int64,
      xpc_dictionary_set_value, htype, hdata]

/-! ## The handlers, one request type at a time -/

/-- C1: a dictionary message whose string field "type" is "ping" is answered, in each
of the four copies of `handle_message` and whatever its other fields are, by one send
on the peer connection of a reply whose content is exactly `response = "pong"`. -/
theorem ping_reply_is_pong (self : Proc) (peer : Connection) (d : Dict)
    (htype : xpc_dictionary_get_string d "type" = some "ping") :
    ∀ hm ∈ handlers, sends (hm self peer (.dictionary d)) =
      [(peer, { original := .dictionary d, content := [("response", .string "pong")] })] := by
  intro hm hmem
  simp only [handlers, List.mem_cons, List.mem_singleton, List.not_mem_nil, or_false] at hmem
  rcases hmem with rfl | rfl | rfl | rfl <;>
    simp [service.handle_message, demo.handle_message, demo_simple.handle_message,
      xpc_service.handle_message, htype, sends, until_exit, Reply.set_string,
      xpc_dictionary_create_reply, xpc_dictionary_set_string, xpc_dictionary_set_value]

/-- Witness of C1: a ping that also carries a "data" string and an integer "a". -/
theorem ping_reply_is_pong_witness :
    xpc_dictionary_get_string
        [("type", .string "ping"), ("data", .string "x"), ("a", .int64 7)] "type"
      = some "ping" ∧
    sends (xpc_service.handle_message ⟨100, 1⟩ ⟨7, 200⟩
        (.dictionary [("type", .string "ping"), ("data", .string "x"), ("a", .int64 7)])) =
      [(⟨7, 200⟩,
        { original :=
            .dictionary [("type", .string "ping"), ("data", .string "x"), ("a", .int64 7)],
          content := [("response", .string "pong")] })] :=
  ⟨by decide,
    ping_reply_is_pong ⟨100, 1⟩ ⟨7, 200⟩ _ (by decide) xpc_service.handle_message
      (by simp [handlers])⟩

/-- C2: a dictionary message of type "echo" is answered, in each copy of
`handle_message`, by exactly `response = s` when it carries the string `s` under "data"
(the empty string included), and by exactly `error = "No data to echo"` when it carries
no string under "data". -/
theorem echo_reply (self : Proc) (peer : Connection) (d : Dict)
    (htype : xpc_dictionary_get_string d "type" = some "echo") :
    ∀ hm ∈ handlers,
      (∀ s : String, xpc_dictionary_get_string d "data" = some s →
        sends (hm self peer (.dictionary d)) =
          [(peer, { original := .dictionary d, content := [("response", .string s)] })]) ∧
      (xpc_dictionary_get_string d "data" = none →
        sends (hm self peer (.dictionary d)) =
          [(peer, { original := .dictionary d,
                    content := [("error", .string "No data to echo")] })]) := by
  intro hm hmem
  exact ⟨fun s hs => sends_echo_data self peer d s htype hs hm hmem,
    fun hs => sends_echo_no_data self peer d htype hs hm hmem⟩

/-- Witness of C2: an echo of the empty string, and an echo whose "data" is an integer. -/
theorem echo_reply_witness :
    sends (service.handle_message ⟨100, 1⟩ ⟨7, 200⟩
        (.dictionary [("type", .string "echo"), ("data", .string "")])) =
      [(⟨7, 200⟩,
        { original := .dictionary [("type", .string "echo"), ("data", .string "")],
          content := [("response", .string "")] })] ∧
    sends (service.handle_message ⟨100, 1⟩ ⟨7, 200⟩
        (.dictionary [("type", .string "echo"), ("data", .int64 3)])) =
      [(⟨7, 200⟩,
        { original := .dictionary [("type", .string "echo"), ("data", .int64 3)],
          content := [("error", .string "No data to echo")] })] :=
  ⟨(echo_reply ⟨100, 1⟩ ⟨7, 200⟩ [("type", .string "echo"), ("data", .string "")]
      (by decide) service.handle_message (by simp [handlers])).1 "" (by decide),
   (echo_reply ⟨100, 1⟩ ⟨7, 200⟩ [("type", .string "echo"), ("data", .int64 3)]
      (by decide) service.handle_message (by simp [handlers])).2 (by decide)⟩

/-- C3: a dictionary message of type "add" that carries the integers `a` and `b` is
answered, in each copy of `handle_message`, by exactly `result = r`, where `r` lies in
the signed 64-bit range and differs from `a + b` by a multiple of `2^64`; it equals
`a + b` whenever that sum is in range, so nothing is saturated and no pair is rejected.
The message `send_add` builds for `INT64_MAX` and 1 gets `result = INT64_MIN`. -/
theorem add_reply_wraps (self : Proc) (peer : Connection) (d : Dict) (a b : Int)
    (htype : xpc_dictionary_get_string d "type" = some "add")
    (ha : xpc_dictionary_get_value d "a" = some (.int64 a))
    (hb : xpc_dictionary_get_value d "b" = some (.int64 b)) :
    ∀ hm ∈ handlers,
      (∃ r : Int,
        sends (hm self peer (.dictionary d)) =
          [(peer, { original := .dictionary d, content := [("result", .int64 r)] })] ∧
        INT64_MIN ≤ r ∧ r ≤ INT64_MAX ∧ (2 : Int) ^ 64 ∣ r - (a + b) ∧
        (INT64_MIN ≤ a + b → a + b ≤ INT64_MAX → r = a + b)) ∧
      sends (hm self peer (.dictionary (client.send_add_message INT64_MAX 1))) =
        [(peer, { original := .dictionary (client.send_add_message INT64_MAX 1),
                  content := [("result", .int64 INT64_MIN)] })] := by
  intro hm hmem
  have hmax : wrap64 (INT64_MAX + 1) = INT64_MIN := by decide
  refine ⟨⟨wrap64 (a + b), ?_, wrap64_lower _, wrap64_upper _, wrap64_congr _,
    wrap64_of_range _⟩, ?_⟩
  · rw [sends_add self peer d htype hm hmem, get_int64_of_value _ _ _ ha,
      get_int64_of_value _ _ _ hb]
  · rw [sends_send_add_message self peer INT64_MAX 1 hm hmem, hmax]

/-- Witness of C3: 42 + 23, sent with an extra field, on the copy of `demo.c`. -/
theorem add_reply_wraps_witness :
    ∃ r : Int,
      sends (demo.handle_message ⟨100, 1⟩ ⟨7, 200⟩ (.dictionary
          [("type", .string "add"), ("a", .int64 42), ("note", .null), ("b", .int64 23)])) =
        [(⟨7, 200⟩, Reply.mk
          (.dictionary
            [("type", .string "add"), ("a", .int64 42), ("note", .null), ("b", .int64 23)])
          [("result", .int64 r)])] ∧
      INT64_MIN ≤ r ∧ r ≤ INT64_MAX ∧ (2 : Int) ^ 64 ∣ r - (42 + 23) ∧
      (INT64_MIN ≤ 42 + 23 → 42 + 23 ≤ INT64_MAX → r = 42 + 23) :=
  (add_reply_wraps ⟨100, 1⟩ ⟨7, 200⟩
    [("type", .string "add"), ("a", .int64 42), ("note", .null), ("b", .int64 23)] 42 23
    (by decide) (by simp [xpc_dictionary_get_value]) (by simp [xpc_dictionary_get_value])
    demo.handle_message (by simp [handlers])).1

/-- C4: the add handler is commutative. For an add message carrying `a` under "a" and
`b` under "b", and an add message carrying them the other way round, each copy of
`handle_message` replies with one and the same value `r` under "result", also when the
sum leaves the 64-bit range. -/
theorem add_commutative (self : Proc) (peer peer' : Connection) (d d' : Dict) (a b : Int)
    (htype : xpc_dictionary_get_string d "type" = some "add")
    (ha : xpc_dictionary_get_value d "a" = some (.int64 a))
    (hb : xpc_dictionary_get_value d "b" = some (.int64 b))
    (htype' : xpc_dictionary_get_string d' "type" = some "add")
    (ha' : xpc_dictionary_get_value d' "a" = some (.int64 b))
    (hb' : xpc_dictionary_get_value d' "b" = some (.int64 a)) :
    ∀ hm ∈ handlers, ∃ r : Int,
      sends (hm self peer (.dictionary d)) =
        [(peer, { original := .dictionary d, content := [("result", .int64 r)] })] ∧
      sends (hm self peer' (.dictionary d')) =
        [(peer', { original := .dictionary d', content := [("result", .int64 r)] })] := by
  intro hm hmem
  refine ⟨wrap64 (a + b), ?_, ?_⟩
  · rw [sends_add self peer d htype hm hmem, get_int64_of_value _ _ _ ha,
      get_int64_of_value _ _ _ hb]
  · rw [sends_add self peer' d' htype' hm hmem, get_int64_of_value _ _ _ ha',
      get_int64_of_value _ _ _ hb', add_comm b a]

/-- Witness of C4: `INT64_MAX + 5` against `5 + INT64_MAX`, a sum that overflows. -/
theorem add_commutative_witness :
    ∃ r : Int,
      sends (service.handle_message ⟨100, 1⟩ ⟨7, 200⟩ (.dictionary
          [("type", .string "add"), ("a", .int64 INT64_MAX), ("b", .int64 5)])) =
        [(⟨7, 200⟩, Reply.mk
          (.dictionary [("type", .string "add"), ("a", .int64 INT64_MAX), ("b", .int64 5)])
          [("result", .int64 r)])] ∧
      sends (service.handle_message ⟨100, 1⟩ ⟨8, 201⟩ (.dictionary
          [("b", .int64 INT64_MAX), ("a", .int64 5), ("type", .string "add")])) =
        [(⟨8, 201⟩, Reply.mk
          (.dictionary [("b", .int64 INT64_MAX), ("a", .int64 5), ("type", .string "add")])
          [("result", .int64 r)])] :=
  add_commutative ⟨100, 1⟩ ⟨7, 200⟩ ⟨8, 201⟩
    [("type", .string "add"), ("a", .int64 INT64_MAX), ("b", .int64 5)]
    [("b", .int64 INT64_MAX), ("a", .int64 5), ("type", .string "add")] INT64_MAX 5
    (by decide) (by simp [xpc_dictionary_get_value]) (by simp [xpc_dictionary_get_value])
    (by decide) (by simp [xpc_dictionary_get_value]) (by simp [xpc_dictionary_get_value])
    service.handle_message (by simp [handlers])

/-- C5: the add handler is associative modulo 64-bit overflow. With the messages built
as `send_add` builds them, each copy of `handle_message` answers `(a, b)` with some
`ab` and `(b, c)` with some `bc`, and then answers `(ab, c)` and `(a, bc)` with one and
the same result, whether or not an intermediate sum wraps. -/
theorem add_associative (self : Proc) (peer : Connection) (a b c : Int) :
    ∀ hm ∈ handlers, ∃ ab bc r : Int,
      sends (hm self peer (.dictionary (client.send_add_message a b))) =
        [(peer, { original := .dictionary (client.send_add_message a b),
                  content := [("result", .int64 ab)] })] ∧
      sends (hm self peer (.dictionary (client.send_add_message b c))) =
        [(peer, { original := .dictionary (client.send_add_message b c),
                  content := [("result", .int64 bc)] })] ∧
      sends (hm self peer (.dictionary (client.send_add_message ab c))) =
        [(peer, { original := .dictionary (client.send_add_message ab c),
                  content := [("result", .int64 r)] })] ∧
      sends (hm self peer (.dictionary (client.send_add_message a bc))) =
        [(peer, { original := .dictionary (client.send_add_message a bc),
                  content := [("result", .int64 r)] })] := by
  intro hm hmem
  refine ⟨wrap64 (a + b), wrap64 (b + c), wrap64 (a + b + c),
    sends_send_add_message self peer a b hm hmem,
    sends_send_add_message self peer b c hm hmem, ?_, ?_⟩
  · rw [sends_send_add_message self peer _ c hm hmem, wrap64_add_left]
  · rw [sends_send_add_message self peer a _ hm hmem, wrap64_add_right, add_assoc]

/-- Witness of C5: `INT64_MAX`, 1 and -1 on the copy of `demo_simple.c`; the
intermediate sum `INT64_MAX + 1` wraps. -/
theorem add_associative_witness :
    ∃ ab bc r : Int,
      sends (demo_simple.handle_message ⟨100, 1⟩ ⟨7, 200⟩
          (.dictionary (client.send_add_message INT64_MAX 1))) =
        [(⟨7, 200⟩, Reply.mk (.dictionary (client.send_add_message INT64_MAX 1))
          [("result", .int64 ab)])] ∧
      sends (demo_simple.handle_message ⟨100, 1⟩ ⟨7, 200⟩
          (.dictionary (client.send_add_message 1 (-1)))) =
        [(⟨7, 200⟩, Reply.mk (.dictionary (client.send_add_message 1 (-1)))
          [("result", .int64 bc)])] ∧
      sends (demo_simple.handle_message ⟨100, 1⟩ ⟨7, 200⟩
          (.dictionary (client.send_add_message ab (-1)))) =
        [(⟨7, 200⟩, Reply.mk (.dictionary (client.send_add_message ab (-1)))
          [("result", .int64 r)])] ∧
      sends (demo_simple.handle_message ⟨100, 1⟩ ⟨7, 200⟩
          (.dictionary (client.send_add_message INT64_MAX bc))) =
        [(⟨7, 200⟩, Reply.mk (.dictionary (client.send_add_message INT64_MAX bc))
          [("result", .int64 r)])] :=
  add_associative ⟨100, 1⟩ ⟨7, 200⟩ INT64_MAX 1 (-1) demo_simple.handle_message
    (by simp [handlers])

/-- C6: a dictionary message of type "info" is answered, in each copy of
`handle_message`, by exactly `pid`, `ppid` and `status = "running"`, where `pid` and
`ppid` are those of the process that runs the handler, whatever the other fields of the
request and whichever peer sent it. -/
theorem info_reply_is_service_identity (self : Proc) (peer : Connection) (d : Dict)
    (htype : xpc_dictionary_get_string d "type" = some "info") :
    ∀ hm ∈ handlers, sends (hm self peer (.dictionary d)) =
      [(peer, { original := .dictionary d,
                content := [("pid", .int64 self.pid), ("ppid", .int64 self.ppid),
                  ("status", .string "running")] })] := by
  intro hm hmem
  simp only [handlers, List.mem_cons, List.mem_singleton, List.not_mem_nil, or_false] at hmem
  rcases hmem with rfl | rfl | rfl | rfl <;>
    simp [service.handle_message, demo.handle_message, demo_simple.handle_message,
      xpc_service.handle_message, sends, until_exit, Reply.set_string, Reply.set_int64,
      xpc_dictionary_create_reply, xpc_dictionary_set_string, xpc_dictionary_set_int64,
      xpc_dictionary_set_value, htype]

/-- Witness of C6: an info request that itself carries "pid", "ppid" and "status"
fields, from a peer of pid 200, to a service of pid 100 and parent 1. -/
theorem info_reply_is_service_identity_witness :
    sends (xpc_service.handle_message ⟨100, 1⟩ ⟨7, 200⟩ (.dictionary
        [("pid", .int64 999), ("type", .string "info"), ("ppid", .int64 998),
          ("status", .string "stopped")])) =
      [(⟨7, 200⟩, Reply.mk
        (.dictionary
          [("pid", .int64 999), ("type", .string "info"), ("ppid", .int64 998),
            ("status", .string "stopped")])
        [("pid", .int64 100), ("ppid", .int64 1), ("status", .string "running")])] :=
  info_reply_is_service_identity ⟨100, 1⟩ ⟨7, 200⟩
    [("pid", .int64 999), ("type", .string "info"), ("ppid", .int64 998),
      ("status", .string "stopped")]
    (by decide) xpc_service.handle_message (by simp [handlers])

/-- C7, as stated, fails on `xpc_service.c`: the type "shutdown" is none of "ping",
"echo", "add", "info", yet its reply is `response = "shutting down"`, not the error
reply, and the handler ends the process with `exit(0)`. -/
theorem unknown_type_shutdown_counterexample :
    xpc_service.handle_message ∈ handlers ∧
    "shutdown" ≠ "ping" ∧ "shutdown" ≠ "echo" ∧ "shutdown" ≠ "add" ∧ "shutdown" ≠ "info" ∧
    sends (xpc_service.handle_message ⟨100, 1⟩ ⟨7, 200⟩
        (.dictionary [("type", .string "shutdown")])) =
      [(⟨7, 200⟩, Reply.mk (.dictionary [("type", .string "shutdown")])
        [("response", .string "shutting down")])] ∧
    sends (xpc_service.handle_message ⟨100, 1⟩ ⟨7, 200⟩
        (.dictionary [("type", .string "shutdown")])) ≠
      [(⟨7, 200⟩, Reply.mk (.dictionary [("type", .string "shutdown")])
        [("error", .string "Unknown message type")])] ∧
    exits (xpc_service.handle_message ⟨100, 1⟩ ⟨7, 200⟩
        (.dictionary [("type", .string "shutdown")])) = [0] := by
  refine ⟨by simp [handlers], by decide, by decide, by decide, by decide, ?_, ?_, ?_⟩ <;>
    simp [service.handle_message, demo.handle_message, demo_simple.handle_message,
      xpc_service.handle_message, sends, until_exit, Reply.set_string, Reply.set_int64,
      xpc_dictionary_create_reply, xpc_dictionary_set_string, xpc_dictionary_set_int64,
      xpc_dictionary_set_value, exits, xpc_dictionary_get_string, xpc_dictionary_get_value]

/-- C7, amended: for a dictionary message whose type string is none of "ping", "echo",
"add", "info", the copies of `handle_message` in `service.c`, `demo.c` and
`demo_simple.c` send exactly `error = "Unknown message type"` and return without
ending the process; the copy in `xpc_service.c` does the same for every such type
other than "shutdown". -/
theorem unknown_type_reply (self : Proc) (peer : Connection) (d : Dict) (t : String)
    (htype : xpc_dictionary_get_string d "type" = some t)
    (hping : t ≠ "ping") (hecho : t ≠ "echo") (hadd : t ≠ "add") (hinfo : t ≠ "info") :
    (∀ hm ∈ [service.handle_message, demo.handle_message, demo_simple.handle_message],
      sends (hm self peer (.dictionary d)) =
        [(peer, { original := .dictionary d,
                  content := [("error", .string "Unknown message type")] })] ∧
      exits (hm self peer (.dictionary d)) = []) ∧
    (t ≠ "shutdown" →
      sends (xpc_service.handle_message self peer (.dictionary d)) =
        [(peer, { original := .dictionary d,
                  content := [("error", .string "Unknown message type")] })] ∧
      exits (xpc_service.handle_message self peer (.dictionary d)) = []) := by
  refine ⟨fun hm hmem => ?_, fun hshut => ?_⟩
  · simp only [List.mem_cons, List.mem_singleton, List.not_mem_nil, or_false] at hmem
    rcases hmem with rfl | rfl | rfl <;>
      simp [service.handle_message, demo.handle_message, demo_simple.handle_message,
      xpc_service.handle_message, sends, until_exit, Reply.set_string, Reply.set_int64,
      xpc_dictionary_create_reply, xpc_dictionary_set_string, xpc_dictionary_set_int64,
      xpc_dictionary_set_value, exits, htype, hping, hecho, hadd, hinfo]
  · simp [service.handle_message, demo.handle_message, demo_simple.handle_message,
      xpc_service.handle_message, sends, until_exit, Reply.set_string, Reply.set_int64,
      xpc_dictionary_create_reply, xpc_dictionary_set_string, xpc_dictionary_set_int64,
      xpc_dictionary_set_value, exits, htype, hping, hecho, hadd, hinfo, hshut]

/-- Witness of C7 amended: "shutdown" on `service.c` and "frobnicate" on
`xpc_service.c`. -/
theorem unknown_type_reply_witness :
    (sends (service.handle_message ⟨100, 1⟩ ⟨7, 200⟩
        (.dictionary [("type", .string "shutdown")])) =
      [(⟨7, 200⟩, Reply.mk (.dictionary [("type", .string "shutdown")])
        [("error", .string "Unknown message type")])] ∧
     exits (service.handle_message ⟨100, 1⟩ ⟨7, 200⟩
        (.dictionary [("type", .string "shutdown")])) = []) ∧
    (sends (xpc_service.handle_message ⟨100, 1⟩ ⟨7, 200⟩
        (.dictionary [("type", .string "frobnicate")])) =
      [(⟨7, 200⟩, Reply.mk (.dictionary [("type", .string "frobnicate")])
        [("error", .string "Unknown message type")])] ∧
     exits (xpc_service.handle_message ⟨100, 1⟩ ⟨7, 200⟩
        (.dictionary [("type", .string "frobnicate")])) = []) :=
  ⟨(unknown_type_reply ⟨100, 1⟩ ⟨7, 200⟩ [("type", .string "shutdown")] "shutdown"
      (by decide) (by decide) (by decide) (by decide) (by decide)).1
      service.handle_message (by simp),
   (unknown_type_reply ⟨100, 1⟩ ⟨7, 200⟩ [("type", .string "frobnicate")] "frobnicate"
      (by decide) (by decide) (by decide) (by decide) (by decide)).2 (by decide)⟩

/-- C8: an event that is not a dictionary, or a dictionary without a string under
"type" (the key is absent or holds a value of another type), makes each copy of
`handle_message` surface exactly one diagnostic, create no reply and send nothing. -/
theorem untyped_message_dropped (self : Proc) (peer : Connection) (message : XpcObject)
    (hno : ∀ d, message = .dictionary d → xpc_dictionary_get_string d "type" = none) :
    ∀ hm ∈ handlers,
      (∃ text, diagnostics (hm self peer message) = [text]) ∧
      created_replies (hm self peer message) = [] ∧
      sends (hm self peer message) = [] := by
  intro hm hmem
  simp only [handlers, List.mem_cons, List.mem_singleton, List.not_mem_nil, or_false] at hmem
  cases message with
  | dictionary d =>
    have h := hno d rfl
    rcases hmem with rfl | rfl | rfl | rfl <;>
      simp [service.handle_message, demo.handle_message, demo_simple.handle_message,
      xpc_service.handle_message, sends, until_exit, Reply.set_string, Reply.set_int64,
      xpc_dictionary_create_reply, xpc_dictionary_set_string, xpc_dictionary_set_int64,
      xpc_dictionary_set_value, diagnostics, created_replies, h]
  | _ =>
    rcases hmem with rfl | rfl | rfl | rfl <;>
      simp [service.handle_message, demo.handle_message, demo_simple.handle_message,
      xpc_service.handle_message, sends, until_exit, Reply.set_string, Reply.set_int64,
      xpc_dictionary_create_reply, xpc_dictionary_set_string, xpc_dictionary_set_int64,
      xpc_dictionary_set_value, diagnostics, created_replies]

/-- Witness of C8: a bare string event, and a dictionary whose "type" is an integer. -/
theorem untyped_message_dropped_witness :
    ((∃ text, diagnostics (service.handle_message ⟨100, 1⟩ ⟨7, 200⟩ (.string "ping"))
        = [text]) ∧
      created_replies (service.handle_message ⟨100, 1⟩ ⟨7, 200⟩ (.string "ping")) = [] ∧
      sends (service.handle_message ⟨100, 1⟩ ⟨7, 200⟩ (.string "ping")) = []) ∧
    ((∃ text, diagnostics (xpc_service.handle_message ⟨100, 1⟩ ⟨7, 200⟩
        (.dictionary [("type", .int64 1), ("data", .string "x")])) = [text]) ∧
      created_replies (xpc_service.handle_message ⟨100, 1⟩ ⟨7, 200⟩
        (.dictionary [("type", .int64 1), ("data", .string "x")])) = [] ∧
      sends (xpc_service.handle_message ⟨100, 1⟩ ⟨7, 200⟩
        (.dictionary [("type", .int64 1), ("data", .string "x")])) = []) :=
  ⟨untyped_message_dropped ⟨100, 1⟩ ⟨7, 200⟩ (.string "ping")
      (fun d h => by cases h) service.handle_message (by simp [handlers]),
   untyped_message_dropped ⟨100, 1⟩ ⟨7, 200⟩
      (.dictionary [("type", .int64 1), ("data", .string "x")])
      (fun d h => by cases h; decide) xpc_service.handle_message (by simp [handlers])⟩

/-- C9: for a dictionary message with a string under "type", each copy of
`handle_message` creates exactly one reply, from that very message, and performs
exactly one send: of that reply, on the peer connection the message arrived on. This
holds on every branch of the dispatch, the "shutdown" branch of `xpc_service.c`
included. -/
theorem exactly_one_send (self : Proc) (peer : Connection) (d : Dict) (t : String)
    (htype : xpc_dictionary_get_string d "type" = some t) :
    ∀ hm ∈ handlers,
      created_replies (hm self peer (.dictionary d)) = [.dictionary d] ∧
      ∃ content : Dict, sends (hm self peer (.dictionary d)) =
        [(peer, { original := .dictionary d, content := content })] := by
  intro hm hmem
  simp only [handlers, List.mem_cons, List.mem_singleton, List.not_mem_nil, or_false] at hmem
  by_cases hping : t = "ping"
  · subst hping
    rcases hmem with rfl | rfl | rfl | rfl <;>
      simp [service.handle_message, demo.handle_message, demo_simple.handle_message,
      xpc_service.handle_message, sends, until_exit, Reply.set_string, Reply.set_int64,
      xpc_dictionary_create_reply, xpc_dictionary_set_string, xpc_dictionary_set_int64,
      xpc_dictionary_set_value, created_replies, htype]
  by_cases hecho : t = "echo"
  · subst hecho
    cases hdata : xpc_dictionary_get_string d "data" <;>
    rcases hmem with rfl | rfl | rfl | rfl <;>
      simp [service.handle_message, demo.handle_message, demo_simple.handle_message,
      xpc_service.handle_message, sends, until_exit, Reply.set_string, Reply.set_int64,
      xpc_dictionary_create_reply, xpc_dictionary_set_string, xpc_dictionary_set_int64,
      xpc_dictionary_set_value, created_replies, htype, hdata]
  by_cases hadd : t = "add"
  · subst hadd
    rcases hmem with rfl | rfl | rfl | rfl <;>
      simp [service.handle_message, demo.handle_message, demo_simple.handle_message,
      xpc_service.handle_message, sends, until_exit, Reply.set_string, Reply.set_int64,
      xpc_dictionary_create_reply, xpc_dictionary_set_string, xpc_dictionary_set_int64,
      xpc_dictionary_set_value, created_replies, htype]
  by_cases hinfo : t = "info"
  · subst hinfo
    rcases hmem with rfl | rfl | rfl | rfl <;>
      simp [service.handle_message, demo.handle_message, demo_simple.handle_message,
      xpc_service.handle_message, sends, until_exit, Reply.set_string, Reply.set_int64,
      xpc_dictionary_create_reply, xpc_dictionary_set_string, xpc_dictionary_set_int64,
      xpc_dictionary_set_value, created_replies, htype]
  by_cases hshut : t = "shutdown"
  · subst hshut
    rcases hmem with rfl | rfl | rfl | rfl <;>
      simp [service.handle_message, demo.handle_message, demo_simple.handle_message,
      xpc_service.handle_message, sends, until_exit, Reply.set_string, Reply.set_int64,
      xpc_dictionary_create_reply, xpc_dictionary_set_string, xpc_dictionary_set_int64,
      xpc_dictionary_set_value, created_replies, htype]
  · rcases hmem with rfl | rfl | rfl | rfl <;>
      simp [service.handle_message, demo.handle_message, demo_simple.handle_message,
      xpc_service.handle_message, sends, until_exit, Reply.set_string, Reply.set_int64,
      xpc_dictionary_create_reply, xpc_dictionary_set_string, xpc_dictionary_set_int64,
      xpc_dictionary_set_value, created_replies, htype, hping, hecho, hadd, hinfo, hshut]

/-- Witness of C9: the "shutdown" request on `xpc_service.c`, the one branch that sends
before the end of the function. -/
theorem exactly_one_send_witness :
    created_replies (xpc_service.handle_message ⟨100, 1⟩ ⟨7, 200⟩
        (.dictionary [("type", .string "shutdown")])) =
      [.dictionary [("type", .string "shutdown")]] ∧
    ∃ content : Dict, sends (xpc_service.handle_message ⟨100, 1⟩ ⟨7, 200⟩
        (.dictionary [("type", .string "shutdown")])) =
      [(⟨7, 200⟩, Reply.mk (.dictionary [("type", .string "shutdown")]) content)] :=
  exactly_one_send ⟨100, 1⟩ ⟨7, 200⟩ [("type", .string "shutdown")] "shutdown"
    (by decide) xpc_service.handle_message (by simp [handlers])

/-- C10, as stated, fails for "add": an add request with "b" = 5 and no "a" is answered
by `result = 5`, a reply with a "result" field and without an "error" field. -/
theorem missing_operand_counterexample :
    xpc_dictionary_get_string [("type", .string "add"), ("b", .int64 5)] "type"
      = some "add" ∧
    xpc_dictionary_get_value [("type", .string "add"), ("b", .int64 5)] "a" = none ∧
    sends (service.handle_message ⟨100, 1⟩ ⟨7, 200⟩
        (.dictionary [("type", .string "add"), ("b", .int64 5)])) =
      [(⟨7, 200⟩, Reply.mk (.dictionary [("type", .string "add"), ("b", .int64 5)])
        [("result", .int64 5)])] ∧
    xpc_dictionary_get_value [("result", .int64 5)] "error" = none ∧
    xpc_dictionary_get_value [("result", .int64 5)] "result" = some (.int64 5) := by
  refine ⟨by decide, ?_, ?_, ?_, ?_⟩ <;>
    simp [service.handle_message, demo.handle_message, demo_simple.handle_message,
      xpc_service.handle_message, sends, until_exit, Reply.set_string, Reply.set_int64,
      xpc_dictionary_create_reply, xpc_dictionary_set_string, xpc_dictionary_set_int64,
      xpc_dictionary_set_value, xpc_dictionary_get_string, xpc_dictionary_get_value,
      xpc_dictionary_get_int64, int64_add, wrap64]

/-- C10, amended: in each copy of `handle_message`, an echo request without a string
under "data" gets a reply that carries an "error" field and neither "response" nor
"result"; an add request without an integer under "a" or under "b" is not rejected: its
reply carries under "result" the wrapped sum of the operands as
`xpc_dictionary_get_int64` reads them, and neither "error" nor "response". -/
theorem missing_field_reply (self : Proc) (peer : Connection) (d : Dict) :
    ∀ hm ∈ handlers,
      (xpc_dictionary_get_string d "type" = some "echo" →
        xpc_dictionary_get_string d "data" = none →
        ∃ reply : Reply, sends (hm self peer (.dictionary d)) = [(peer, reply)] ∧
          (∃ e, xpc_dictionary_get_value reply.content "error" = some (.string e)) ∧
          xpc_dictionary_get_value reply.content "response" = none ∧
          xpc_dictionary_get_value reply.content "result" = none) ∧
      (xpc_dictionary_get_string d "type" = some "add" →
        ((∀ v, xpc_dictionary_get_value d "a" ≠ some (.int64 v)) ∨
          (∀ v, xpc_dictionary_get_value d "b" ≠ some (.int64 v))) →
        ∃ reply : Reply, sends (hm self peer (.dictionary d)) = [(peer, reply)] ∧
          xpc_dictionary_get_value reply.content "result" = some (.int64
            (wrap64 (xpc_dictionary_get_int64 d "a" + xpc_dictionary_get_int64 d "b"))) ∧
          xpc_dictionary_get_value reply.content "error" = none ∧
          xpc_dictionary_get_value reply.content "response" = none) := by
  intro hm hmem
  refine ⟨fun htype hdata => ?_, fun htype _ => ?_⟩
  · refine ⟨_, sends_echo_no_data self peer d htype hdata hm hmem, ?_⟩
    simp [xpc_dictionary_get_value]
  · refine ⟨_, sends_add self peer d htype hm hmem, ?_⟩
    simp [xpc_dictionary_get_value]

/-- Witness of C10 amended: an echo whose "data" is an integer, and an add whose "a" is
a string. -/
theorem missing_field_reply_witness :
    (∃ reply : Reply, sends (demo_simple.handle_message ⟨100, 1⟩ ⟨7, 200⟩
        (.dictionary [("type", .string "echo"), ("data", .int64 3)])) =
          [(⟨7, 200⟩, reply)] ∧
      (∃ e, xpc_dictionary_get_value reply.content "error" = some (.string e)) ∧
      xpc_dictionary_get_value reply.content "response" = none ∧
      xpc_dictionary_get_value reply.content "result" = none) ∧
    (∃ reply : Reply, sends (demo_simple.handle_message ⟨100, 1⟩ ⟨7, 200⟩
        (.dictionary [("type", .string "add"), ("a", .string "four"), ("b", .int64 5)])) =
          [(⟨7, 200⟩, reply)] ∧
      xpc_dictionary_get_value reply.content "result" = some (.int64
        (wrap64
          (xpc_dictionary_get_int64
              [("type", .string "add"), ("a", .string "four"), ("b", .int64 5)] "a" +
            xpc_dictionary_get_int64
              [("type", .string "add"), ("a", .string "four"), ("b", .int64 5)] "b"))) ∧
      xpc_dictionary_get_value reply.content "error" = none ∧
      xpc_dictionary_get_value reply.content "response" = none) :=
  ⟨(missing_field_reply ⟨100, 1⟩ ⟨7, 200⟩
      [("type", .string "echo"), ("data", .int64 3)]
      demo_simple.handle_message (by simp [handlers])).1 (by decide) (by decide),
   (missing_field_reply ⟨100, 1⟩ ⟨7, 200⟩
      [("type", .string "add"), ("a", .string "four"), ("b", .int64 5)]
      demo_simple.handle_message (by simp [handlers])).2 (by decide)
      (Or.inl (fun v => by simp [xpc_dictionary_get_value]))⟩

/-! ## The run over object memory against the run over values -/

theorem content_create_reply_of_ne (mem : Memory) (message object : Nat)
    (hne : object ≠ mem.next) :
    (mem.create_reply message).2.content object = mem.content object := by
  simp [Memory.create_reply, Memory.content, hne]

theorem handle_message_in_frame (self : Proc) (peer : Connection) (message : Nat)
    (mem : Memory) (h : Nat) (hne : h ≠ mem.next) :
    (service.handle_message_in self peer message mem).1.cell h = mem.cell h := by
  unfold service.handle_message_in
  split
  · split
    · rfl
    · simp only []
      split_ifs
      · simp [Memory.set_string, Memory.create_reply, hne]
      · split <;> simp [Memory.set_string, Memory.create_reply, hne]
      · simp [Memory.set_int64, Memory.create_reply, hne]
      · simp [Memory.set_string, Memory.set_int64, Memory.create_reply, hne]
      · simp [Memory.set_string, Memory.create_reply, hne]
  · rfl

theorem handle_message_in_trace (self : Proc) (peer : Connection) (message : Nat)
    (mem : Memory) (object : XpcObject) (hne : message ≠ mem.next)
    (hcell : mem.cell message = some object) :
    (service.handle_message_in self peer message mem).2 =
      service.handle_message self peer object := by
  unfold service.handle_message_in service.handle_message
  cases object with
  | dictionary d =>
    have hcontent : mem.content message = d := by simp [Memory.content, hcell]
    simp only [hcell, hcontent, content_create_reply_of_ne mem message message hne]
    cases xpc_dictionary_get_string d "type" with
    | none => rfl
    | some t =>
      simp only []
      split_ifs
      · simp [Memory.set_string, Memory.create_reply, Memory.reply_sent, Memory.content,
          hne, hcell, Reply.set_string, xpc_dictionary_create_reply]
      · cases xpc_dictionary_get_string d "data" <;>
          simp [Memory.set_string, Memory.create_reply, Memory.reply_sent, Memory.content,
            hne, hcell, Reply.set_string, xpc_dictionary_create_reply]
      · simp [Memory.set_int64, Memory.create_reply, Memory.reply_sent, Memory.content,
          hne, hcell, Reply.set_int64, xpc_dictionary_create_reply]
      · simp [Memory.set_string, Memory.set_int64, Memory.create_reply, Memory.reply_sent,
          Memory.content, hne, hcell, Reply.set_string, Reply.set_int64,
          xpc_dictionary_create_reply]
      · simp [Memory.set_string, Memory.create_reply, Memory.reply_sent, Memory.content,
          hne, hcell, Reply.set_string, xpc_dictionary_create_reply]
  | _ => simp [hcell]

theorem sends_typed (self : Proc) (peer : Connection) (d : Dict) (t : String)
    (htype : xpc_dictionary_get_string d "type" = some t) :
    ∀ hm ∈ handlers, ∃ content : Dict,
      sends (hm self peer (.dictionary d)) =
        [(peer, { original := .dictionary d, content := content })] ∧
      keys content ∈ handler_keys := by
  intro hm hmem
  simp only [handlers, List.mem_cons, List.mem_singleton, List.not_mem_nil, or_false] at hmem
  by_cases hping : t = "ping"
  · subst hping
    rcases hmem with rfl | rfl | rfl | rfl <;>
      simp [service.handle_message, demo.handle_message, demo_simple.handle_message,
      xpc_service.handle_message, sends, until_exit, Reply.set_string, Reply.set_int64,
      xpc_dictionary_create_reply, xpc_dictionary_set_string, xpc_dictionary_set_int64,
      xpc_dictionary_set_value, keys, handler_keys, htype]
  by_cases hecho : t = "echo"
  · subst hecho
    cases hdata : xpc_dictionary_get_string d "data" <;>
    rcases hmem with rfl | rfl | rfl | rfl <;>
      simp [service.handle_message, demo.handle_message, demo_simple.handle_message,
      xpc_service.handle_message, sends, until_exit, Reply.set_string, Reply.set_int64,
      xpc_dictionary_create_reply, xpc_dictionary_set_string, xpc_dictionary_set_int64,
      xpc_dictionary_set_value, keys, handler_keys, htype, hdata]
  by_cases hadd : t = "add"
  · subst hadd
    rcases hmem with rfl | rfl | rfl | rfl <;>
      simp [service.handle_message, demo.handle_message, demo_simple.handle_message,
      xpc_service.handle_message, sends, until_exit, Reply.set_string, Reply.set_int64,
      xpc_dictionary_create_reply, xpc_dictionary_set_string, xpc_dictionary_set_int64,
      xpc_dictionary_set_value, keys, handler_keys, htype]
  by_cases hinfo : t = "info"
  · subst hinfo
    rcases hmem with rfl | rfl | rfl | rfl <;>
      simp [service.handle_message, demo.handle_message, demo_simple.handle_message,
      xpc_service.handle_message, sends, until_exit, Reply.set_string, Reply.set_int64,
      xpc_dictionary_create_reply, xpc_dictionary_set_string, xpc_dictionary_set_int64,
      xpc_dictionary_set_value, keys, handler_keys, htype]
  by_cases hshut : t = "shutdown"
  · subst hshut
    rcases hmem with rfl | rfl | rfl | rfl <;>
      simp [service.handle_message, demo.handle_message, demo_simple.handle_message,
      xpc_service.handle_message, sends, until_exit, Reply.set_string, Reply.set_int64,
      xpc_dictionary_create_reply, xpc_dictionary_set_string, xpc_dictionary_set_int64,
      xpc_dictionary_set_value, keys, handler_keys, htype]
  · rcases hmem with rfl | rfl | rfl | rfl <;>
      simp [service.handle_message, demo.handle_message, demo_simple.handle_message,
      xpc_service.handle_message, sends, until_exit, Reply.set_string, Reply.set_int64,
      xpc_dictionary_create_reply, xpc_dictionary_set_string, xpc_dictionary_set_int64,
      xpc_dictionary_set_value, keys, handler_keys, htype, hping, hecho, hadd, hinfo, hshut]

theorem handle_message_in_reply_cell (self : Proc) (peer : Connection) (message : Nat)
    (mem : Memory) (d : Dict) (t : String) (hne : message ≠ mem.next)
    (hcell : mem.cell message = some (.dictionary d))
    (htype : xpc_dictionary_get_string d "type" = some t) :
    ∃ content : Dict,
      (service.handle_message_in self peer message mem).1.cell mem.next =
        some (.dictionary content) ∧
      sends (service.handle_message_in self peer message mem).2 =
        [(peer, { original := .dictionary d, content := content })] := by
  have hcontent : mem.content message = d := by simp [Memory.content, hcell]
  unfold service.handle_message_in
  simp only [hcell, hcontent, htype, content_create_reply_of_ne mem message message hne]
  split_ifs
  · simp [Memory.set_string, Memory.create_reply, Memory.reply_sent, Memory.content,
      hne, hcell, sends]
  · cases xpc_dictionary_get_string d "data" <;>
      simp [Memory.set_string, Memory.create_reply, Memory.reply_sent, Memory.content,
        hne, hcell, sends]
  · simp [Memory.set_int64, Memory.create_reply, Memory.reply_sent, Memory.content,
      hne, hcell, sends]
  · simp [Memory.set_string, Memory.set_int64, Memory.create_reply, Memory.reply_sent,
      Memory.content, hne, hcell, sends]
  · simp [Memory.set_string, Memory.create_reply, Memory.reply_sent, Memory.content,
      hne, hcell, sends]

theorem not_mem_of_handler_keys (ks : List String) (hks : ks ∈ handler_keys) :
    "type" ∉ ks ∧ "data" ∉ ks ∧ "a" ∉ ks ∧ "b" ∉ ks := by
  simp only [handler_keys, List.mem_cons, List.mem_singleton, List.not_mem_nil,
    or_false] at hks
  rcases hks with rfl | rfl | rfl | rfl <;> decide

/-! ## Frame, purity and the peer event handlers -/

/-- C11: `handle_message` never writes to the inbound message. On object memory, the
run of `service.c` leaves the cell of the message, and of every object that existed
before the call, as it was; the reply is a new object, distinct from the message, that
starts as the empty dictionary; what is sent is the content of that object at the end,
and its keys are those the selected branch sets, so none of "type", "data", "a", "b"
is carried over. The last holds for the reply of each of the four copies. -/
theorem request_untouched_reply_fresh (self : Proc) (peer : Connection) (message : Nat)
    (mem : Memory) (halloc : message < mem.next) :
    (service.handle_message_in self peer message mem).1.cell message = mem.cell message ∧
    (∀ h, h < mem.next →
      (service.handle_message_in self peer message mem).1.cell h = mem.cell h) ∧
    (mem.create_reply message).1 ≠ message ∧
    (mem.create_reply message).2.cell (mem.create_reply message).1 =
      some (.dictionary []) ∧
    (∀ d t, mem.cell message = some (.dictionary d) →
      xpc_dictionary_get_string d "type" = some t →
      ∃ content : Dict,
        (service.handle_message_in self peer message mem).1.cell
            (mem.create_reply message).1 = some (.dictionary content) ∧
        sends (service.handle_message_in self peer message mem).2 =
          [(peer, { original := .dictionary d, content := content })] ∧
        keys content ∈ handler_keys ∧
        "type" ∉ keys content ∧ "data" ∉ keys content ∧ "a" ∉ keys content ∧
        "b" ∉ keys content) ∧
    (∀ hm ∈ handlers, ∀ d t, xpc_dictionary_get_string d "type" = some t →
      ∃ content : Dict,
        sends (hm self peer (.dictionary d)) =
          [(peer, { original := .dictionary d, content := content })] ∧
        keys content ∈ handler_keys ∧
        "type" ∉ keys content ∧ "data" ∉ keys content ∧ "a" ∉ keys content ∧
        "b" ∉ keys content) := by
  have hne : message ≠ mem.next := Nat.ne_of_lt halloc
  refine ⟨handle_message_in_frame self peer message mem message hne,
    fun h hh => handle_message_in_frame self peer message mem h (Nat.ne_of_lt hh),
    fun heq => hne heq.symm, by simp [Memory.create_reply], ?_, ?_⟩
  · intro d t hcell htype
    obtain ⟨content, hfinal, hsent⟩ :=
      handle_message_in_reply_cell self peer message mem d t hne hcell htype
    obtain ⟨content', hsent', hkeys⟩ :=
      sends_typed self peer d t htype service.handle_message (by simp [handlers])
    have htrace := handle_message_in_trace self peer message mem _ hne hcell
    have hc : content' = content := by
      rw [htrace, hsent'] at hsent
      simpa using hsent
    subst hc
    exact ⟨content', hfinal, hsent, hkeys, not_mem_of_handler_keys _ hkeys⟩
  · intro hm hmem d t htype
    obtain ⟨content, hsent, hkeys⟩ := sends_typed self peer d t htype hm hmem
    exact ⟨content, hsent, hkeys, not_mem_of_handler_keys _ hkeys⟩

/-- Witness of C11: an echo request with fields "type", "data", "a" and "b", held at
handle 0 of a memory with nothing else in it. -/
theorem request_untouched_reply_fresh_witness :
    (service.handle_message_in ⟨100, 1⟩ ⟨7, 200⟩ 0 (Memory.single (.dictionary
        [("type", .string "echo"), ("data", .string "hi"), ("a", .int64 1),
          ("b", .int64 2)]))).1.cell 0 =
      (Memory.single (.dictionary
        [("type", .string "echo"), ("data", .string "hi"), ("a", .int64 1),
          ("b", .int64 2)])).cell 0 ∧
    ∃ content : Dict,
      (service.handle_message_in ⟨100, 1⟩ ⟨7, 200⟩ 0 (Memory.single (.dictionary
          [("type", .string "echo"), ("data", .string "hi"), ("a", .int64 1),
            ("b", .int64 2)]))).1.cell 1 = some (.dictionary content) ∧
      sends (service.handle_message_in ⟨100, 1⟩ ⟨7, 200⟩ 0 (Memory.single (.dictionary
          [("type", .string "echo"), ("data", .string "hi"), ("a", .int64 1),
            ("b", .int64 2)]))).2 =
        [(⟨7, 200⟩, Reply.mk
          (.dictionary
            [("type", .string "echo"), ("data", .string "hi"), ("a", .int64 1),
              ("b", .int64 2)])
          content)] ∧
      keys content ∈ handler_keys ∧
      "type" ∉ keys content ∧ "data" ∉ keys content ∧ "a" ∉ keys content ∧
      "b" ∉ keys content :=
  ⟨(request_untouched_reply_fresh ⟨100, 1⟩ ⟨7, 200⟩ 0 (Memory.single (.dictionary
        [("type", .string "echo"), ("data", .string "hi"), ("a", .int64 1),
          ("b", .int64 2)])) (by decide)).1,
   (request_untouched_reply_fresh ⟨100, 1⟩ ⟨7, 200⟩ 0 (Memory.single (.dictionary
        [("type", .string "echo"), ("data", .string "hi"), ("a", .int64 1),
          ("b", .int64 2)])) (by decide)).2.2.2.2.1 _ "echo" rfl (by decide)⟩

theorem reply_contents_congr (self self' : Proc) (peer peer' : Connection) (d d' : Dict)
    (t : String)
    (hfields : ∀ key, xpc_dictionary_get_value d key = xpc_dictionary_get_value d' key)
    (htype : xpc_dictionary_get_string d "type" = some t)
    (hself : t = "info" → self = self') :
    ∀ hm ∈ handlers,
      reply_contents (hm self peer (.dictionary d)) =
        reply_contents (hm self' peer' (.dictionary d')) := by
  intro hm hmem
  simp only [handlers, List.mem_cons, List.mem_singleton, List.not_mem_nil, or_false] at hmem
  have hstr : ∀ key, xpc_dictionary_get_string d' key = xpc_dictionary_get_string d key := by
    intro key
    simp [xpc_dictionary_get_string, hfields key]
  have hint : ∀ key, xpc_dictionary_get_int64 d' key = xpc_dictionary_get_int64 d key := by
    intro key
    simp [xpc_dictionary_get_int64, hfields key]
  have htype' : xpc_dictionary_get_string d' "type" = some t := by rw [hstr, htype]
  by_cases hping : t = "ping"
  · subst hping
    rcases hmem with rfl | rfl | rfl | rfl <;>
      simp [service.handle_message, demo.handle_message, demo_simple.handle_message,
      xpc_service.handle_message, sends, until_exit, Reply.set_string, Reply.set_int64,
      xpc_dictionary_create_reply, xpc_dictionary_set_string, xpc_dictionary_set_int64,
      xpc_dictionary_set_value, reply_contents, htype, htype']
  by_cases hecho : t = "echo"
  · subst hecho
    have hdata' := hstr "data"
    cases hdata : xpc_dictionary_get_string d "data" <;>
    rw [hdata] at hdata' <;>
    rcases hmem with rfl | rfl | rfl | rfl <;>
      simp [service.handle_message, demo.handle_message, demo_simple.handle_message,
      xpc_service.handle_message, sends, until_exit, Reply.set_string, Reply.set_int64,
      xpc_dictionary_create_reply, xpc_dictionary_set_string, xpc_dictionary_set_int64,
      xpc_dictionary_set_value, reply_contents, htype, htype', hdata, hdata']
  by_cases hadd : t = "add"
  · subst hadd
    rcases hmem with rfl | rfl | rfl | rfl <;>
      simp [service.handle_message, demo.handle_message, demo_simple.handle_message,
      xpc_service.handle_message, sends, until_exit, Reply.set_string, Reply.set_int64,
      xpc_dictionary_create_reply, xpc_dictionary_set_string, xpc_dictionary_set_int64,
      xpc_dictionary_set_value, reply_contents, htype, htype', hint]
  by_cases hinfo : t = "info"
  · subst hinfo
    have hs := hself rfl
    subst hs
    rcases hmem with rfl | rfl | rfl | rfl <;>
      simp [service.handle_message, demo.handle_message, demo_simple.handle_message,
      xpc_service.handle_message, sends, until_exit, Reply.set_string, Reply.set_int64,
      xpc_dictionary_create_reply, xpc_dictionary_set_string, xpc_dictionary_set_int64,
      xpc_dictionary_set_value, reply_contents, htype, htype']
  by_cases hshut : t = "shutdown"
  · subst hshut
    rcases hmem with rfl | rfl | rfl | rfl <;>
      simp [service.handle_message, demo.handle_message, demo_simple.handle_message,
      xpc_service.handle_message, sends, until_exit, Reply.set_string, Reply.set_int64,
      xpc_dictionary_create_reply, xpc_dictionary_set_string, xpc_dictionary_set_int64,
      xpc_dictionary_set_value, reply_contents, htype, htype']
  · rcases hmem with rfl | rfl | rfl | rfl <;>
      simp [service.handle_message, demo.handle_message, demo_simple.handle_message,
      xpc_service.handle_message, sends, until_exit, Reply.set_string, Reply.set_int64,
      xpc_dictionary_create_reply, xpc_dictionary_set_string, xpc_dictionary_set_int64,
      xpc_dictionary_set_value, reply_contents, htype, htype', hping, hecho, hadd, hinfo, hshut]

/-- C12: the reply content of `handle_message` is a function of the fields of the
inbound message and, for "info" only, of the pid and ppid of the service. Two
messages with the same value under every key get replies of equal content from each
copy, whatever the peer connections and, unless the type is "info", whatever the
process identities; a message with a string type always gets exactly one reply. On
object memory the run of `service.c` gives equal reply contents whatever else the two
memories hold, so what was handled earlier does not matter. -/
theorem reply_is_function_of_fields (self self' : Proc) (peer peer' : Connection)
    (d d' : Dict) (t : String)
    (hfields : ∀ key, xpc_dictionary_get_value d key = xpc_dictionary_get_value d' key)
    (htype : xpc_dictionary_get_string d "type" = some t)
    (hself : t = "info" → self = self') :
    (∀ hm ∈ handlers,
      reply_contents (hm self peer (.dictionary d)) =
        reply_contents (hm self' peer' (.dictionary d')) ∧
      ∃ content : Dict, reply_contents (hm self peer (.dictionary d)) = [content]) ∧
    (∀ (mem mem' : Memory) (message message' : Nat),
      message < mem.next → message' < mem'.next →
      mem.cell message = some (.dictionary d) →
      mem'.cell message' = some (.dictionary d') →
      reply_contents (service.handle_message_in self peer message mem).2 =
        reply_contents (service.handle_message_in self' peer' message' mem').2) := by
  refine ⟨fun hm hmem => ⟨reply_contents_congr self self' peer peer' d d' t hfields htype
    hself hm hmem, ?_⟩, ?_⟩
  · obtain ⟨content, hsent, _⟩ := sends_typed self peer d t htype hm hmem
    exact ⟨content, by simp [reply_contents, hsent]⟩
  · intro mem mem' message message' halloc halloc' hcell hcell'
    rw [handle_message_in_trace self peer message mem _ (Nat.ne_of_lt halloc) hcell,
      handle_message_in_trace self' peer' message' mem' _ (Nat.ne_of_lt halloc') hcell']
    exact reply_contents_congr self self' peer peer' d d' t hfields htype hself
      service.handle_message (by simp [handlers])

/-- Witness of C12: the same add request with its fields in two orders, sent by two
peers to two processes. -/
theorem reply_is_function_of_fields_witness :
    reply_contents (demo.handle_message ⟨100, 1⟩ ⟨7, 200⟩
        (.dictionary [("type", .string "add"), ("a", .int64 1), ("b", .int64 2)])) =
      reply_contents (demo.handle_message ⟨300, 2⟩ ⟨8, 201⟩
        (.dictionary [("b", .int64 2), ("a", .int64 1), ("type", .string "add")])) ∧
    ∃ content : Dict, reply_contents (demo.handle_message ⟨100, 1⟩ ⟨7, 200⟩
        (.dictionary [("type", .string "add"), ("a", .int64 1), ("b", .int64 2)])) =
      [content] :=
  (reply_is_function_of_fields ⟨100, 1⟩ ⟨300, 2⟩ ⟨7, 200⟩ ⟨8, 201⟩
    [("type", .string "add"), ("a", .int64 1), ("b", .int64 2)]
    [("b", .int64 2), ("a", .int64 1), ("type", .string "add")] "add"
    (fun key => by
      simp only [xpc_dictionary_get_value]
      split_ifs <;> (try subst_vars) <;> first | rfl | simp_all)
    (by decide) (fun h => absurd h (by decide))).1 demo.handle_message (by simp [handlers])

theorem handle_message_no_connection_call (self : Proc) (peer : Connection)
    (message : XpcObject) :
    ∀ hm ∈ handlers,
      connection_ops (hm self peer message) = [] ∧ requests (hm self peer message) = [] := by
  intro hm hmem
  simp only [handlers, List.mem_cons, List.mem_singleton, List.not_mem_nil, or_false] at hmem
  cases message with
  | dictionary d =>
    cases htype : xpc_dictionary_get_string d "type" with
    | none =>
      rcases hmem with rfl | rfl | rfl | rfl <;>
        simp [service.handle_message, demo.handle_message, demo_simple.handle_message,
      xpc_service.handle_message, sends, until_exit, Reply.set_string, Reply.set_int64,
      xpc_dictionary_create_reply, xpc_dictionary_set_string, xpc_dictionary_set_int64,
      xpc_dictionary_set_value, connection_ops, requests, htype]
    | some t =>
      by_cases hping : t = "ping"
      · subst hping
        rcases hmem with rfl | rfl | rfl | rfl <;>
          simp [service.handle_message, demo.handle_message, demo_simple.handle_message,
      xpc_service.handle_message, sends, until_exit, Reply.set_string, Reply.set_int64,
      xpc_dictionary_create_reply, xpc_dictionary_set_string, xpc_dictionary_set_int64,
      xpc_dictionary_set_value, connection_ops, requests, htype]
      by_cases hecho : t = "echo"
      · subst hecho
        cases hdata : xpc_dictionary_get_string d "data" <;>
        rcases hmem with rfl | rfl | rfl | rfl <;>
          simp [service.handle_message, demo.handle_message, demo_simple.handle_message,
      xpc_service.handle_message, sends, until_exit, Reply.set_string, Reply.set_int64,
      xpc_dictionary_create_reply, xpc_dictionary_set_string, xpc_dictionary_set_int64,
      xpc_dictionary_set_value, connection_ops, requests, htype, hdata]
      by_cases hadd : t = "add"
      · subst hadd
        rcases hmem with rfl | rfl | rfl | rfl <;>
          simp [service.handle_message, demo.handle_message, demo_simple.handle_message,
      xpc_service.handle_message, sends, until_exit, Reply.set_string, Reply.set_int64,
      xpc_dictionary_create_reply, xpc_dictionary_set_string, xpc_dictionary_set_int64,
      xpc_dictionary_set_value, connection_ops, requests, htype]
      by_cases hinfo : t = "info"
      · subst hinfo
        rcases hmem with rfl | rfl | rfl | rfl <;>
          simp [service.handle_message, demo.handle_message, demo_simple.handle_message,
      xpc_service.handle_message, sends, until_exit, Reply.set_string, Reply.set_int64,
      xpc_dictionary_create_reply, xpc_dictionary_set_string, xpc_dictionary_set_int64,
      xpc_dictionary_set_value, connection_ops, requests, htype]
      by_cases hshut : t = "shutdown"
      · subst hshut
        rcases hmem with rfl | rfl | rfl | rfl <;>
          simp [service.handle_message, demo.handle_message, demo_simple.handle_message,
      xpc_service.handle_message, sends, until_exit, Reply.set_string, Reply.set_int64,
      xpc_dictionary_create_reply, xpc_dictionary_set_string, xpc_dictionary_set_int64,
      xpc_dictionary_set_value, connection_ops, requests, htype]
      · rcases hmem with rfl | rfl | rfl | rfl <;>
          simp [service.handle_message, demo.handle_message, demo_simple.handle_message,
      xpc_service.handle_message, sends, until_exit, Reply.set_string, Reply.set_int64,
      xpc_dictionary_create_reply, xpc_dictionary_set_string, xpc_dictionary_set_int64,
      xpc_dictionary_set_value, connection_ops, requests, htype, hping, hecho, hadd, hinfo, hshut]
  | _ =>
    rcases hmem with rfl | rfl | rfl | rfl <;>
      simp [service.handle_message, demo.handle_message, demo_simple.handle_message,
      xpc_service.handle_message, sends, until_exit, Reply.set_string, Reply.set_int64,
      xpc_dictionary_create_reply, xpc_dictionary_set_string, xpc_dictionary_set_int64,
      xpc_dictionary_set_value, connection_ops, requests]

theorem handle_message_sends (self : Proc) (peer : Connection) (d : Dict) :
    ∀ hm ∈ handlers,
      (sends (hm self peer (.dictionary d))).length ≤ 1 ∧
      ∀ sent ∈ sends (hm self peer (.dictionary d)),
        sent.1 = peer ∧ sent.2.original = .dictionary d := by
  intro hm hmem
  cases htype : xpc_dictionary_get_string d "type" with
  | none =>
    simp only [handlers, List.mem_cons, List.mem_singleton, List.not_mem_nil,
      or_false] at hmem
    rcases hmem with rfl | rfl | rfl | rfl <;>
      simp [service.handle_message, demo.handle_message, demo_simple.handle_message,
      xpc_service.handle_message, sends, until_exit, Reply.set_string, Reply.set_int64,
      xpc_dictionary_create_reply, xpc_dictionary_set_string, xpc_dictionary_set_int64,
      xpc_dictionary_set_value, htype]
  | some t =>
    obtain ⟨content, hsent, _⟩ := sends_typed self peer d t htype hm hmem
    simp [hsent]

theorem handle_message_exits (self : Proc) (peer : Connection) (message : XpcObject) :
    (∀ hm ∈ [service.handle_message, demo.handle_message, demo_simple.handle_message],
      exits (hm self peer message) = []) ∧
    ((∀ d, message = .dictionary d →
        xpc_dictionary_get_string d "type" ≠ some "shutdown") →
      exits (xpc_service.handle_message self peer message) = []) := by
  cases message with
  | dictionary d =>
    cases htype : xpc_dictionary_get_string d "type" with
    | none =>
      refine ⟨fun hm hmem => ?_, fun _ => ?_⟩
      · simp only [List.mem_cons, List.mem_singleton, List.not_mem_nil, or_false] at hmem
        rcases hmem with rfl | rfl | rfl <;>
          simp [service.handle_message, demo.handle_message, demo_simple.handle_message,
      xpc_service.handle_message, exits, until_exit, Reply.set_string, Reply.set_int64,
      xpc_dictionary_create_reply, xpc_dictionary_set_string, xpc_dictionary_set_int64,
      xpc_dictionary_set_value, htype]
      · simp [service.handle_message, demo.handle_message, demo_simple.handle_message,
      xpc_service.handle_message, exits, until_exit, Reply.set_string, Reply.set_int64,
      xpc_dictionary_create_reply, xpc_dictionary_set_string, xpc_dictionary_set_int64,
      xpc_dictionary_set_value, htype]
    | some t =>
      refine ⟨fun hm hmem => ?_, fun hnot => ?_⟩
      · simp only [List.mem_cons, List.mem_singleton, List.not_mem_nil, or_false] at hmem
        cases hdata : xpc_dictionary_get_string d "data" <;>
        rcases hmem with rfl | rfl | rfl <;>
          simp only [service.handle_message, demo.handle_message,
            demo_simple.handle_message, htype, hdata] <;>
          split_ifs <;>
          simp [exits]
      · have hshut : t ≠ "shutdown" := fun h => hnot d rfl (by rw [htype, h])
        cases hdata : xpc_dictionary_get_string d "data" <;>
          simp only [xpc_service.handle_message, htype, hdata] <;>
          split_ifs <;>
          simp [exits, until_exit]
  | _ =>
    refine ⟨fun hm hmem => ?_, fun _ => ?_⟩
    · simp only [List.mem_cons, List.mem_singleton, List.not_mem_nil, or_false] at hmem
      rcases hmem with rfl | rfl | rfl <;>
        simp [service.handle_message, demo.handle_message, demo_simple.handle_message,
      xpc_service.handle_message, exits, until_exit, Reply.set_string, Reply.set_int64,
      xpc_dictionary_create_reply, xpc_dictionary_set_string, xpc_dictionary_set_int64,
      xpc_dictionary_set_value]
    · simp [service.handle_message, demo.handle_message, demo_simple.handle_message,
      xpc_service.handle_message, exits, until_exit, Reply.set_string, Reply.set_int64,
      xpc_dictionary_create_reply, xpc_dictionary_set_string, xpc_dictionary_set_int64,
      xpc_dictionary_set_value]

/-- C13, as stated, fails on `xpc_service.c`: on a dictionary of type "shutdown" the
peer event handler sends its reply and then ends the process with `exit(0)`, which
takes every connection of the process down with it. -/
theorem peer_event_shutdown_counterexample :
    xpc_service.handle_peer_event ∈ peer_event_handlers ∧
    xpc_service.handle_peer_event ⟨100, 1⟩ ⟨7, 200⟩
        (.dictionary [("type", .string "shutdown")]) =
      [.stdout "[Service] Received message of type: shutdown\n",
        .create_reply (.dictionary [("type", .string "shutdown")]),
        .stdout "[Service] Shutdown requested\n",
        .send ⟨7, 200⟩ (Reply.mk (.dictionary [("type", .string "shutdown")])
          [("response", .string "shutting down")]),
        .exit 0] ∧
    exits (xpc_service.handle_peer_event ⟨100, 1⟩ ⟨7, 200⟩
        (.dictionary [("type", .string "shutdown")])) = [0] ∧
    exits (xpc_service.handle_peer_event ⟨100, 1⟩ ⟨7, 200⟩
        (.dictionary [("type", .string "shutdown")])) ≠ [] := by
  refine ⟨by simp [peer_event_handlers], ?_, ?_, ?_⟩ <;>
    simp [xpc_service.handle_peer_event, xpc_service.handle_message, exits, until_exit,
      Reply.set_string, xpc_dictionary_create_reply, xpc_dictionary_set_string,
      xpc_dictionary_set_value, xpc_dictionary_get_string, xpc_dictionary_get_value]

/-- C13, amended: the peer event handler never changes connection state, except that
in `xpc_service.c` a dictionary of type "shutdown" ends the process after its reply.
For every event, each copy of `handle_peer_event` makes no call that registers a
handler, resumes or cancels a connection, and sends no request; on an error event,
`TerminationImminent` included, it sends nothing and creates no reply; on a dictionary
event it does exactly what `handle_message` of the same file does, which sends at most
one message, the reply to that event on the peer connection. The copies of
`service.c`, `demo.c` and `demo_simple.c` never end the process, and the copy of
`xpc_service.c` does not either on any event other than a dictionary of type
"shutdown". -/
theorem peer_event_keeps_connections (self : Proc) (peer : Connection)
    (event : XpcObject) :
    (∀ hpe ∈ peer_event_handlers,
      connection_ops (hpe self peer event) = [] ∧
      requests (hpe self peer event) = [] ∧
      (∀ e, event = .error e →
        sends (hpe self peer event) = [] ∧ created_replies (hpe self peer event) = []) ∧
      (sends (hpe self peer event)).length ≤ 1 ∧
      ∀ sent ∈ sends (hpe self peer event), sent.1 = peer ∧ sent.2.original = event) ∧
    (∀ d, event = .dictionary d →
      ∀ pair ∈ List.zip peer_event_handlers handlers,
        pair.1 self peer event = pair.2 self peer event) ∧
    (∀ hpe ∈ [service.handle_peer_event, demo.handle_peer_event,
        demo_simple.handle_peer_event],
      exits (hpe self peer event) = []) ∧
    ((∀ d, event = .dictionary d →
        xpc_dictionary_get_string d "type" ≠ some "shutdown") →
      exits (xpc_service.handle_peer_event self peer event) = []) := by
  have hs := handle_message_no_connection_call self peer event service.handle_message
    (by simp [handlers])
  have hd := handle_message_no_connection_call self peer event demo.handle_message
    (by simp [handlers])
  have hds := handle_message_no_connection_call self peer event
    demo_simple.handle_message (by simp [handlers])
  have hx := handle_message_no_connection_call self peer event
    xpc_service.handle_message (by simp [handlers])
  have hexit := handle_message_exits self peer event
  refine ⟨fun hpe hmem => ?_, fun d hev pair hmem => ?_, fun hpe hmem => ?_,
    fun hnot => ?_⟩
  · simp only [peer_event_handlers, List.mem_cons, List.mem_singleton, List.not_mem_nil,
      or_false] at hmem
    cases event with
    | dictionary d =>
      have ss := handle_message_sends self peer d service.handle_message
        (by simp [handlers])
      have sd := handle_message_sends self peer d demo.handle_message
        (by simp [handlers])
      have sds := handle_message_sends self peer d demo_simple.handle_message
        (by simp [handlers])
      have sx := handle_message_sends self peer d xpc_service.handle_message
        (by simp [handlers])
      rcases hmem with rfl | rfl | rfl | rfl
      · exact ⟨hs.1, hs.2, fun e he => (by cases he), ss⟩
      · exact ⟨hd.1, hd.2, fun e he => (by cases he), sd⟩
      · exact ⟨hds.1, hds.2, fun e he => (by cases he), sds⟩
      · exact ⟨hx.1, hx.2, fun e he => (by cases he), sx⟩
    | error e =>
      rcases hmem with rfl | rfl | rfl | rfl <;>
        simp only [service.handle_peer_event, demo.handle_peer_event,
          demo_simple.handle_peer_event, xpc_service.handle_peer_event] <;>
        split_ifs <;>
        simp [connection_ops, requests, sends, created_replies]
    | _ =>
      rcases hmem with rfl | rfl | rfl | rfl <;>
        simp [service.handle_peer_event, demo.handle_peer_event,
          demo_simple.handle_peer_event, xpc_service.handle_peer_event, connection_ops,
          requests, sends]
  · subst hev
    simp only [peer_event_handlers, handlers, List.zip_cons_cons, List.zip_nil_right,
      List.mem_cons, List.mem_singleton, List.not_mem_nil, or_false] at hmem
    rcases hmem with rfl | rfl | rfl | rfl <;> rfl
  · simp only [List.mem_cons, List.mem_singleton, List.not_mem_nil, or_false] at hmem
    cases event with
    | dictionary d =>
      rcases hmem with rfl | rfl | rfl
      · exact hexit.1 service.handle_message (by simp)
      · exact hexit.1 demo.handle_message (by simp)
      · exact hexit.1 demo_simple.handle_message (by simp)
    | error e =>
      rcases hmem with rfl | rfl | rfl <;>
        simp only [service.handle_peer_event, demo.handle_peer_event,
          demo_simple.handle_peer_event] <;>
        split_ifs <;>
        simp [exits]
    | _ =>
      rcases hmem with rfl | rfl | rfl <;>
        simp [service.handle_peer_event, demo.handle_peer_event,
          demo_simple.handle_peer_event, exits]
  · cases event with
    | dictionary d => exact hexit.2 hnot
    | error e =>
      simp only [xpc_service.handle_peer_event]
      split_ifs <;> simp [exits]
    | _ => simp [xpc_service.handle_peer_event, exits]

/-- Witness of C13 amended: `TerminationImminent` on `service.c`, a dictionary of the
unknown type "frobnicate" on `xpc_service.c`, and a dictionary of type "shutdown" on
`demo.c`. -/
theorem peer_event_keeps_connections_witness :
    (connection_ops (service.handle_peer_event ⟨100, 1⟩ ⟨7, 200⟩
        (.error .terminationImminent)) = [] ∧
      sends (service.handle_peer_event ⟨100, 1⟩ ⟨7, 200⟩
        (.error .terminationImminent)) = [] ∧
      created_replies (service.handle_peer_event ⟨100, 1⟩ ⟨7, 200⟩
        (.error .terminationImminent)) = []) ∧
    (connection_ops (xpc_service.handle_peer_event ⟨100, 1⟩ ⟨7, 200⟩
        (.dictionary [("type", .string "frobnicate")])) = [] ∧
      xpc_service.handle_peer_event ⟨100, 1⟩ ⟨7, 200⟩
          (.dictionary [("type", .string "frobnicate")]) =
        xpc_service.handle_message ⟨100, 1⟩ ⟨7, 200⟩
          (.dictionary [("type", .string "frobnicate")]) ∧
      exits (xpc_service.handle_peer_event ⟨100, 1⟩ ⟨7, 200⟩
        (.dictionary [("type", .string "frobnicate")])) = []) ∧
    exits (demo.handle_peer_event ⟨100, 1⟩ ⟨7, 200⟩
        (.dictionary [("type", .string "shutdown")])) = [] :=
  ⟨⟨((peer_event_keeps_connections ⟨100, 1⟩ ⟨7, 200⟩ (.error .terminationImminent)).1
        service.handle_peer_event (by simp [peer_event_handlers])).1,
    ((peer_event_keeps_connections ⟨100, 1⟩ ⟨7, 200⟩ (.error .terminationImminent)).1
        service.handle_peer_event (by simp [peer_event_handlers])).2.2.1 _ rfl⟩,
   ⟨((peer_event_keeps_connections ⟨100, 1⟩ ⟨7, 200⟩
        (.dictionary [("type", .string "frobnicate")])).1
        xpc_service.handle_peer_event (by simp [peer_event_handlers])).1,
    (peer_event_keeps_connections ⟨100, 1⟩ ⟨7, 200⟩
        (.dictionary [("type", .string "frobnicate")])).2.1 _ rfl
        (xpc_service.handle_peer_event, xpc_service.handle_message)
        (by simp [peer_event_handlers, handlers]),
    (peer_event_keeps_connections ⟨100, 1⟩ ⟨7, 200⟩
        (.dictionary [("type", .string "frobnicate")])).2.2.2
        (fun d hd => by cases hd; decide)⟩,
   (peer_event_keeps_connections ⟨100, 1⟩ ⟨7, 200⟩
        (.dictionary [("type", .string "shutdown")])).2.2.1
        demo.handle_peer_event (by simp)⟩

/-! ## The client against the service -/

theorem round_trip_ping (self : Proc) (peer connection : Connection) :
    ∀ hm ∈ handlers,
      round_trip hm self peer connection (.dictionary client.send_ping_message) =
        .ok [("response", .string "pong")] := by
  intro hm hmem
  simp only [handlers, List.mem_cons, List.mem_singleton, List.not_mem_nil, or_false] at hmem
  rcases hmem with rfl | rfl | rfl | rfl <;>
    simp [round_trip, service.handle_message, demo.handle_message, demo_simple.handle_message,
      xpc_service.handle_message, sends, until_exit, Reply.set_string, Reply.set_int64,
      xpc_dictionary_create_reply, xpc_dictionary_set_string, xpc_dictionary_set_int64,
      xpc_dictionary_set_value, client.send_ping_message, xpc_dictionary_get_string,
      xpc_dictionary_get_value]

theorem round_trip_echo (self : Proc) (peer connection : Connection) (text : String) :
    ∀ hm ∈ handlers,
      round_trip hm self peer connection (.dictionary (client.send_echo_message text)) =
        .ok [("response", .string text)] := by
  intro hm hmem
  simp only [handlers, List.mem_cons, List.mem_singleton, List.not_mem_nil, or_false] at hmem
  rcases hmem with rfl | rfl | rfl | rfl <;>
    simp [round_trip, service.handle_message, demo.handle_message, demo_simple.handle_message,
      xpc_service.handle_message, sends, until_exit, Reply.set_string, Reply.set_int64,
      xpc_dictionary_create_reply, xpc_dictionary_set_string, xpc_dictionary_set_int64,
      xpc_dictionary_set_value, client.send_echo_message, xpc_dictionary_get_string,
      xpc_dictionary_get_value]

theorem round_trip_add (self : Proc) (peer connection : Connection) (a b : Int) :
    ∀ hm ∈ handlers,
      round_trip hm self peer connection (.dictionary (client.send_add_message a b)) =
        .ok [("result", .int64 (wrap64 (a + b)))] := by
  intro hm hmem
  simp [round_trip, sends_send_add_message self peer a b hm hmem]

/-- C14: the request builders of `client.c` composed with `handle_message`. Against
each copy of the handler, `send_ping` gets the reply `response = "pong"` and prints it
as received; `send_add(a, b)` gets `result = a + b` wrapped to 64 bits and prints that
number, 65 for 42 and 23; `send_echo(text)` gets `response = text` and prints it. -/
theorem client_reads_back (self : Proc) (peer connection : Connection) :
    ∀ hm ∈ handlers,
      (round_trip hm self peer connection (.dictionary client.send_ping_message) =
          .ok [("response", .string "pong")] ∧
        client.send_ping (round_trip hm self peer) connection =
          [.stdout "[Client] Sending ping...\n",
            .send_message_with_reply_sync connection
              (.dictionary client.send_ping_message),
            .stdout "[Client] Received: pong\n\n"]) ∧
      (∀ a b : Int,
        round_trip hm self peer connection (.dictionary (client.send_add_message a b)) =
          .ok [("result", .int64 (wrap64 (a + b)))] ∧
        client.send_add (round_trip hm self peer) connection a b =
          [.stdout ("[Client] Sending add request: " ++ toString a ++ " + " ++ toString b
              ++ "\n"),
            .send_message_with_reply_sync connection
              (.dictionary (client.send_add_message a b)),
            .stdout ("[Client] Result: " ++ toString (wrap64 (a + b)) ++ "\n\n")]) ∧
      client.send_add (round_trip hm self peer) connection 42 23 =
        [.stdout "[Client] Sending add request: 42 + 23\n",
          .send_message_with_reply_sync connection
            (.dictionary (client.send_add_message 42 23)),
          .stdout "[Client] Result: 65\n\n"] ∧
      (∀ text : String,
        round_trip hm self peer connection (.dictionary (client.send_echo_message text)) =
          .ok [("response", .string text)] ∧
        client.send_echo (round_trip hm self peer) connection text =
          [.stdout ("[Client] Sending echo with text: '" ++ text ++ "'\n"),
            .send_message_with_reply_sync connection
              (.dictionary (client.send_echo_message text)),
            .stdout ("[Client] Echo response: " ++ text ++ "\n\n")]) := by
  intro hm hmem
  have hping := round_trip_ping self peer connection hm hmem
  have hadd := fun a b => round_trip_add self peer connection a b hm hmem
  have hecho := fun text => round_trip_echo self peer connection text hm hmem
  have h65 : wrap64 (42 + 23) = 65 := by decide
  refine ⟨⟨hping, ?_⟩, fun a b => ⟨hadd a b, ?_⟩, ?_, fun text => ⟨hecho text, ?_⟩⟩
  · simp [client.send_ping, hping, xpc_dictionary_get_string, xpc_dictionary_get_value]
  · simp [client.send_add, hadd, xpc_dictionary_get_int64, xpc_dictionary_get_value]
  · simp only [client.send_add, hadd, xpc_dictionary_get_int64, xpc_dictionary_get_value,
      h65]
    rfl
  · simp [client.send_echo, hecho, xpc_dictionary_get_string, xpc_dictionary_get_value]

/-- Witness of C14: 42 + 23 against the handler of `service.c`. -/
theorem client_reads_back_witness :
    client.send_add (round_trip service.handle_message ⟨100, 1⟩ ⟨7, 200⟩) ⟨3, 100⟩ 42 23 =
      [.stdout "[Client] Sending add request: 42 + 23\n",
        .send_message_with_reply_sync ⟨3, 100⟩
          (.dictionary (client.send_add_message 42 23)),
        .stdout "[Client] Result: 65\n\n"] :=
  (client_reads_back ⟨100, 1⟩ ⟨7, 200⟩ ⟨3, 100⟩ service.handle_message
    (by simp [handlers])).2.2.1

/-! ## The lifecycle order in the programs -/

theorem lifecycle_run_append (conn : Connection) (state : Lifecycle)
    (first second : List Effect) :
    Lifecycle.run conn state (first ++ second) =
      (Lifecycle.run conn state first).bind fun next => Lifecycle.run conn next second := by
  induction first generalizing state with
  | nil => rfl
  | cons e rest ih =>
    simp only [List.cons_append, Lifecycle.run]
    cases Lifecycle.step conn state e with
    | none => rfl
    | some next => exact ih next

theorem lifecycle_run_append_some (conn : Connection) (state next : Lifecycle)
    (first second : List Effect) (hfirst : Lifecycle.run conn state first = some next) :
    Lifecycle.run conn state (first ++ second) = Lifecycle.run conn next second := by
  rw [lifecycle_run_append, hfirst]
  rfl

theorem lifecycle_send_ping (reply_sync : Connection → XpcObject → Except XpcError Dict)
    (conn : Connection) :
    Lifecycle.run conn .resumed (client.send_ping reply_sync conn) = some .resumed := by
  cases hreply : reply_sync conn (.dictionary client.send_ping_message) <;>
    simp [client.send_ping, hreply, Lifecycle.run, Lifecycle.step]

theorem lifecycle_send_echo (reply_sync : Connection → XpcObject → Except XpcError Dict)
    (conn : Connection) (text : String) :
    Lifecycle.run conn .resumed (client.send_echo reply_sync conn text) = some .resumed := by
  cases hreply : reply_sync conn (.dictionary (client.send_echo_message text)) with
  | error e => simp [client.send_echo, hreply, Lifecycle.run, Lifecycle.step]
  | ok reply =>
    cases hresponse : xpc_dictionary_get_string reply "response" <;>
    cases herror : xpc_dictionary_get_string reply "error" <;>
      simp [client.send_echo, hreply, Lifecycle.run, Lifecycle.step, hresponse, herror]

theorem lifecycle_send_add (reply_sync : Connection → XpcObject → Except XpcError Dict)
    (conn : Connection) (a b : Int) :
    Lifecycle.run conn .resumed (client.send_add reply_sync conn a b) = some .resumed := by
  cases hreply : reply_sync conn (.dictionary (client.send_add_message a b)) <;>
    simp [client.send_add, hreply, Lifecycle.run, Lifecycle.step]

theorem lifecycle_send_info (reply_sync : Connection → XpcObject → Except XpcError Dict)
    (conn : Connection) :
    Lifecycle.run conn .resumed (client.send_info reply_sync conn) = some .resumed := by
  cases hreply : reply_sync conn (.dictionary client.send_info_message) <;>
    simp [client.send_info, hreply, Lifecycle.run, Lifecycle.step]

/-- C16: the lifecycle order (handler registered, then resumed, then messages, none
after cancel) holds on the connection of `run_client` in `client.c`, whatever replies
come back, but not in `main.c`: there `main` sends a message on `new_connection`
although no handler was registered on it and it was never resumed. -/
theorem main_c_sends_before_resume :
    (∀ connection new_connection : Connection,
      lifecycle_ok new_connection (main_c.main connection new_connection) = false ∧
      connection_ops (main_c.main connection new_connection) = [] ∧
      requests (main_c.main connection new_connection) =
        [.send_message_with_reply new_connection (.dictionary []) .main_reply]) ∧
    (∀ (self : Proc) (reply_sync : Connection → XpcObject → Except XpcError Dict)
        (connection : Connection),
      lifecycle_ok connection (client.run_client self reply_sync (some connection)) =
        true) := by
  refine ⟨fun connection new_connection => ?_, fun self reply_sync connection => ?_⟩
  · simp [lifecycle_ok, main_c.main, Lifecycle.run, Lifecycle.step, connection_ops,
      requests]
  · have hopen : Lifecycle.run connection .created
        [.stdout ("[Client] Starting (PID: " ++ toString self.pid ++ ")\n"),
          .stdout "[Client] Creating connection from endpoint...\n",
          .connection_create_from_endpoint (some connection)] = some .created := by
      simp [Lifecycle.run, Lifecycle.step]
    have hresume : Lifecycle.run connection .created
        [.set_event_handler connection .client_events, .resume connection,
          .stdout "[Client] Connection established\n\n"] = some .resumed := by
      simp [Lifecycle.run, Lifecycle.step]
    have hclose : Lifecycle.run connection .resumed
        [.stdout "[Client] Demo complete. Cleaning up...\n", .cancel connection,
          .sleep 1] = some .cancelled := by
      simp [Lifecycle.run, Lifecycle.step]
    simp only [lifecycle_ok, client.run_client, List.append_assoc]
    rw [lifecycle_run_append_some _ _ _ _ _ hopen,
      lifecycle_run_append_some _ _ _ _ _ hresume,
      lifecycle_run_append_some _ _ _ _ _ (lifecycle_send_ping _ _),
      lifecycle_run_append_some _ _ _ _ _ (lifecycle_send_echo _ _ _),
      lifecycle_run_append_some _ _ _ _ _ (lifecycle_send_add _ _ _ _),
      lifecycle_run_append_some _ _ _ _ _ (lifecycle_send_info _ _),
      lifecycle_run_append_some _ _ _ _ _ (lifecycle_send_echo _ _ _),
      lifecycle_run_append_some _ _ _ _ _ (lifecycle_send_add _ _ _ _),
      lifecycle_run_append_some _ _ _ _ _ (lifecycle_send_ping _ _), hclose]
    rfl

/-! ## Listeners -/

/-- C17: on an event of connection type, the accept handler of each service program
registers a handler on that child connection and then resumes the child, once and in
that order, and makes no other call on any connection, so the listener is left as it
is. The block it registers passes every event of the child to `handle_peer_event` of
the same file with that child as the peer (in `demo.c` after one line of output). -/
theorem accept_registers_then_resumes (self : Proc) (rt : Runtime) (handle : Nat) :
    (connection_ops (service.listener_block rt (.connection handle)) =
        [.set_event_handler (rt.connection handle)
            (.service_peer_events (rt.connection handle)),
          .resume (rt.connection handle)] ∧
      ∀ event, Block.run self rt (.service_peer_events (rt.connection handle)) event =
        service.handle_peer_event self (rt.connection handle) event) ∧
    (connection_ops (demo_simple.listener_block rt (.connection handle)) =
        [.set_event_handler (rt.connection handle)
            (.demo_simple_peer_events (rt.connection handle)),
          .resume (rt.connection handle)] ∧
      ∀ event, Block.run self rt (.demo_simple_peer_events (rt.connection handle)) event =
        demo_simple.handle_peer_event self (rt.connection handle) event) ∧
    (connection_ops (demo.listener_block rt (.connection handle)) =
        [.set_event_handler (rt.connection handle)
            (.demo_peer_events (rt.connection handle)),
          .resume (rt.connection handle)] ∧
      ∀ event, Block.run self rt (.demo_peer_events (rt.connection handle)) event =
        .stdout "[Service] Received event in peer handler\n" ::
          demo.handle_peer_event self (rt.connection handle) event) ∧
    (connection_ops (xpc_service.connection_handler (rt.connection handle)) =
        [.set_event_handler (rt.connection handle)
            (.xpc_service_peer_events (rt.connection handle)),
          .resume (rt.connection handle)] ∧
      ∀ event, Block.run self rt (.xpc_service_peer_events (rt.connection handle)) event =
        xpc_service.handle_peer_event self (rt.connection handle) event) ∧
    (∀ lb ∈ listener_blocks,
      sends (lb rt (.connection handle)) = [] ∧
      requests (lb rt (.connection handle)) = []) := by
  refine ⟨⟨?_, fun _ => rfl⟩, ⟨?_, fun _ => rfl⟩, ⟨?_, fun _ => rfl⟩, ⟨?_, fun _ => rfl⟩,
    fun lb hmem => ?_⟩
  · simp [service.listener_block, service.handle_new_connection, connection_ops]
  · simp [demo_simple.listener_block, connection_ops]
  · simp [demo.listener_block, demo.handle_new_connection, connection_ops]
  · simp [xpc_service.connection_handler, connection_ops]
  · simp only [listener_blocks, List.mem_cons, List.mem_singleton, List.not_mem_nil,
      or_false] at hmem
    rcases hmem with rfl | rfl | rfl <;>
      simp [service.listener_block, service.handle_new_connection,
        demo_simple.listener_block, demo.listener_block, demo.handle_new_connection,
        sends, requests]

/-- Witness of C17: the connection of handle 7 arrives at the listener of `service.c`
and of `demo.c`; the runtime reports 200 as its peer pid. -/
theorem accept_registers_then_resumes_witness :
    connection_ops (service.listener_block ⟨fun _ => 200, "0x1"⟩ (.connection 7)) =
      [.set_event_handler ⟨7, 200⟩ (.service_peer_events ⟨7, 200⟩), .resume ⟨7, 200⟩] ∧
    sends (demo.listener_block ⟨fun _ => 200, "0x1"⟩ (.connection 7)) = [] ∧
    requests (demo.listener_block ⟨fun _ => 200, "0x1"⟩ (.connection 7)) = [] :=
  ⟨(accept_registers_then_resumes ⟨100, 1⟩ ⟨fun _ => 200, "0x1"⟩ 7).1.1,
   (accept_registers_then_resumes ⟨100, 1⟩ ⟨fun _ => 200, "0x1"⟩ 7).2.2.2.2
      demo.listener_block (by simp [listener_blocks])⟩

/-- C18: a listener carries no application message. On an event that is not of
connection type, each listener block sends nothing, creates no reply, sends no
request and makes no call on a connection; on a dictionary event it does nothing at
all, so `handle_message` is not invoked. -/
theorem listener_ignores_messages (rt : Runtime) (event : XpcObject)
    (hnot : ∀ handle, event ≠ .connection handle) :
    ∀ lb ∈ listener_blocks,
      sends (lb rt event) = [] ∧
      created_replies (lb rt event) = [] ∧
      requests (lb rt event) = [] ∧
      connection_ops (lb rt event) = [] ∧
      (∀ d, event = .dictionary d → lb rt event = []) := by
  intro lb hmem
  simp only [listener_blocks, List.mem_cons, List.mem_singleton, List.not_mem_nil,
    or_false] at hmem
  cases event with
  | connection handle => exact absurd rfl (hnot handle)
  | _ =>
    rcases hmem with rfl | rfl | rfl <;>
      simp [service.listener_block, demo.listener_block, demo_simple.listener_block,
        sends, created_replies, requests, connection_ops]

/-- Witness of C18: a ping dictionary delivered to the listener of `service.c`. -/
theorem listener_ignores_messages_witness :
    sends (service.listener_block ⟨fun _ => 200, "0x1"⟩
        (.dictionary [("type", .string "ping")])) = [] ∧
    created_replies (service.listener_block ⟨fun _ => 200, "0x1"⟩
        (.dictionary [("type", .string "ping")])) = [] ∧
    requests (service.listener_block ⟨fun _ => 200, "0x1"⟩
        (.dictionary [("type", .string "ping")])) = [] ∧
    connection_ops (service.listener_block ⟨fun _ => 200, "0x1"⟩
        (.dictionary [("type", .string "ping")])) = [] ∧
    service.listener_block ⟨fun _ => 200, "0x1"⟩
        (.dictionary [("type", .string "ping")]) = [] :=
  have h := listener_ignores_messages ⟨fun _ => 200, "0x1"⟩
    (.dictionary [("type", .string "ping")]) (fun handle hh => by cases hh)
    service.listener_block (by simp [listener_blocks])
  ⟨h.1, h.2.1, h.2.2.1, h.2.2.2.1, h.2.2.2.2 _ rfl⟩

/-! ## The four copies against each other -/

theorem sends_untyped (self : Proc) (peer : Connection) (message : XpcObject)
    (hno : ∀ d, message = .dictionary d → xpc_dictionary_get_string d "type" = none) :
    ∀ hm ∈ handlers, sends (hm self peer message) = [] := by
  intro hm hmem
  simp only [handlers, List.mem_cons, List.mem_singleton, List.not_mem_nil, or_false] at hmem
  cases message with
  | dictionary d =>
    have h := hno d rfl
    rcases hmem with rfl | rfl | rfl | rfl <;>
      simp [service.handle_message, demo.handle_message, demo_simple.handle_message,
      xpc_service.handle_message, sends, until_exit, Reply.set_string, Reply.set_int64,
      xpc_dictionary_create_reply, xpc_dictionary_set_string, xpc_dictionary_set_int64,
      xpc_dictionary_set_value, h]
  | _ =>
    rcases hmem with rfl | rfl | rfl | rfl <;>
      simp [service.handle_message, demo.handle_message, demo_simple.handle_message,
      xpc_service.handle_message, sends, until_exit, Reply.set_string, Reply.set_int64,
      xpc_dictionary_create_reply, xpc_dictionary_set_string, xpc_dictionary_set_int64,
      xpc_dictionary_set_value]

theorem sends_agree_of_not_shutdown (self : Proc) (peer : Connection) (d : Dict)
    (t : String) (htype : xpc_dictionary_get_string d "type" = some t)
    (hshut : t ≠ "shutdown") :
    ∀ hm ∈ handlers, sends (hm self peer (.dictionary d)) =
      sends (service.handle_message self peer (.dictionary d)) := by
  intro hm hmem
  simp only [handlers, List.mem_cons, List.mem_singleton, List.not_mem_nil, or_false] at hmem
  by_cases hping : t = "ping"
  · subst hping
    rcases hmem with rfl | rfl | rfl | rfl <;>
      simp [service.handle_message, demo.handle_message, demo_simple.handle_message,
      xpc_service.handle_message, sends, until_exit, Reply.set_string, Reply.set_int64,
      xpc_dictionary_create_reply, xpc_dictionary_set_string, xpc_dictionary_set_int64,
      xpc_dictionary_set_value, htype]
  by_cases hecho : t = "echo"
  · subst hecho
    cases hdata : xpc_dictionary_get_string d "data" <;>
    rcases hmem with rfl | rfl | rfl | rfl <;>
      simp [service.handle_message, demo.handle_message, demo_simple.handle_message,
      xpc_service.handle_message, sends, until_exit, Reply.set_string, Reply.set_int64,
      xpc_dictionary_create_reply, xpc_dictionary_set_string, xpc_dictionary_set_int64,
      xpc_dictionary_set_value, htype, hdata]
  by_cases hadd : t = "add"
  · subst hadd
    rcases hmem with rfl | rfl | rfl | rfl <;>
      simp [service.handle_message, demo.handle_message, demo_simple.handle_message,
      xpc_service.handle_message, sends, until_exit, Reply.set_string, Reply.set_int64,
      xpc_dictionary_create_reply, xpc_dictionary_set_string, xpc_dictionary_set_int64,
      xpc_dictionary_set_value, htype]
  by_cases hinfo : t = "info"
  · subst hinfo
    rcases hmem with rfl | rfl | rfl | rfl <;>
      simp [service.handle_message, demo.handle_message, demo_simple.handle_message,
      xpc_service.handle_message, sends, until_exit, Reply.set_string, Reply.set_int64,
      xpc_dictionary_create_reply, xpc_dictionary_set_string, xpc_dictionary_set_int64,
      xpc_dictionary_set_value, htype]
  · rcases hmem with rfl | rfl | rfl | rfl <;>
      simp [service.handle_message, demo.handle_message, demo_simple.handle_message,
      xpc_service.handle_message, sends, until_exit, Reply.set_string, Reply.set_int64,
      xpc_dictionary_create_reply, xpc_dictionary_set_string, xpc_dictionary_set_int64,
      xpc_dictionary_set_value, htype, hping, hecho, hadd, hinfo, hshut]

theorem sends_shutdown (self : Proc) (peer : Connection) (d : Dict)
    (htype : xpc_dictionary_get_string d "type" = some "shutdown") :
    (sends (xpc_service.handle_message self peer (.dictionary d)) =
        [(peer, { original := .dictionary d,
                  content := [("response", .string "shutting down")] })] ∧
      exits (xpc_service.handle_message self peer (.dictionary d)) = [0]) ∧
    ∀ hm ∈ [service.handle_message, demo.handle_message, demo_simple.handle_message],
      sends (hm self peer (.dictionary d)) =
        [(peer, { original := .dictionary d,
                  content := [("error", .string "Unknown message type")] })] ∧
      exits (hm self peer (.dictionary d)) = [] := by
  refine ⟨by simp [service.handle_message, demo.handle_message, demo_simple.handle_message,
      xpc_service.handle_message, sends, until_exit, Reply.set_string, Reply.set_int64,
      xpc_dictionary_create_reply, xpc_dictionary_set_string, xpc_dictionary_set_int64,
      xpc_dictionary_set_value, exits, htype], fun hm hmem => ?_⟩
  simp only [List.mem_cons, List.mem_singleton, List.not_mem_nil, or_false] at hmem
  rcases hmem with rfl | rfl | rfl <;>
    simp [service.handle_message, demo.handle_message, demo_simple.handle_message,
      xpc_service.handle_message, sends, until_exit, Reply.set_string, Reply.set_int64,
      xpc_dictionary_create_reply, xpc_dictionary_set_string, xpc_dictionary_set_int64,
      xpc_dictionary_set_value, exits, htype]

/-- C19: the four copies of `handle_message` agree on the reply. For every inbound
event other than a dictionary of type "shutdown", all four perform the same sends: none
for an event without a string type, and one reply of the same content otherwise. For
type "shutdown", `xpc_service.c` replies `response = "shutting down"` and exits with
status 0, while the other three reply `error = "Unknown message type"` and return. -/
theorem copies_agree_on_reply (self : Proc) (peer : Connection) (message : XpcObject) :
    ((∀ d, message = .dictionary d →
        xpc_dictionary_get_string d "type" ≠ some "shutdown") →
      ∀ hm ∈ handlers, sends (hm self peer message) =
        sends (service.handle_message self peer message)) ∧
    (∀ d, message = .dictionary d →
      xpc_dictionary_get_string d "type" = some "shutdown" →
      (sends (xpc_service.handle_message self peer message) =
          [(peer, { original := message,
                    content := [("response", .string "shutting down")] })] ∧
        exits (xpc_service.handle_message self peer message) = [0]) ∧
      ∀ hm ∈ [service.handle_message, demo.handle_message, demo_simple.handle_message],
        sends (hm self peer message) =
          [(peer, { original := message,
                    content := [("error", .string "Unknown message type")] })] ∧
        exits (hm self peer message) = []) := by
  refine ⟨fun hnot hm hmem => ?_, fun d hd htype => ?_⟩
  · by_cases htyped : ∃ d t, message = .dictionary d ∧
        xpc_dictionary_get_string d "type" = some t
    · obtain ⟨d, t, rfl, htype⟩ := htyped
      have hshut : t ≠ "shutdown" := fun h => hnot d rfl (by rw [htype, h])
      exact sends_agree_of_not_shutdown self peer d t htype hshut hm hmem
    · have hno : ∀ d, message = .dictionary d →
          xpc_dictionary_get_string d "type" = none := by
        intro d hd
        cases hcase : xpc_dictionary_get_string d "type" with
        | none => rfl
        | some t => exact absurd ⟨d, t, hd, hcase⟩ htyped
      rw [sends_untyped self peer message hno hm hmem,
        sends_untyped self peer message hno service.handle_message (by simp [handlers])]
  · subst hd
    exact sends_shutdown self peer d htype

/-- Witness of C19: an echo request on `demo_simple.c` against `service.c`, and a
shutdown request on `xpc_service.c` against `demo.c`. -/
theorem copies_agree_on_reply_witness :
    sends (demo_simple.handle_message ⟨100, 1⟩ ⟨7, 200⟩
        (.dictionary [("type", .string "echo"), ("data", .string "hi")])) =
      sends (service.handle_message ⟨100, 1⟩ ⟨7, 200⟩
        (.dictionary [("type", .string "echo"), ("data", .string "hi")])) ∧
    (sends (xpc_service.handle_message ⟨100, 1⟩ ⟨7, 200⟩
        (.dictionary [("type", .string "shutdown")])) =
      [(⟨7, 200⟩, Reply.mk (.dictionary [("type", .string "shutdown")])
        [("response", .string "shutting down")])] ∧
     exits (xpc_service.handle_message ⟨100, 1⟩ ⟨7, 200⟩
        (.dictionary [("type", .string "shutdown")])) = [0]) ∧
    (sends (demo.handle_message ⟨100, 1⟩ ⟨7, 200⟩
        (.dictionary [("type", .string "shutdown")])) =
      [(⟨7, 200⟩, Reply.mk (.dictionary [("type", .string "shutdown")])
        [("error", .string "Unknown message type")])] ∧
     exits (demo.handle_message ⟨100, 1⟩ ⟨7, 200⟩
        (.dictionary [("type", .string "shutdown")])) = []) :=
  ⟨(copies_agree_on_reply ⟨100, 1⟩ ⟨7, 200⟩
      (.dictionary [("type", .string "echo"), ("data", .string "hi")])).1
      (fun d hd => by cases hd; decide) demo_simple.handle_message (by simp [handlers]),
   ((copies_agree_on_reply ⟨100, 1⟩ ⟨7, 200⟩
      (.dictionary [("type", .string "shutdown")])).2 _ rfl (by decide)).1,
   ((copies_agree_on_reply ⟨100, 1⟩ ⟨7, 200⟩
      (.dictionary [("type", .string "shutdown")])).2 _ rfl (by decide)).2
      demo.handle_message (by simp)⟩

/-! ## Missing operands of add -/

theorem get_int64_of_no_int (d : Dict) (key : String)
    (h : ∀ v, xpc_dictionary_get_value d key ≠ some (.int64 v)) :
    xpc_dictionary_get_int64 d key = 0 := by
  unfold xpc_dictionary_get_int64
  split
  · next v hv => exact absurd hv (h v)
  · rfl

/-- C20: in the add handler an operand that is absent or not an integer is read as 0.
For an add message, each copy of `handle_message` replies `result = a` when "a" holds
the 64-bit integer `a` and "b" holds no integer, `result = b` when "b" holds `b` and
"a" holds no integer, and `result = 0` when neither holds an integer; in each case
that reply is sent, nothing is rejected. -/
theorem add_missing_operand_is_zero (self : Proc) (peer : Connection) (d : Dict)
    (htype : xpc_dictionary_get_string d "type" = some "add") :
    ∀ hm ∈ handlers,
      (∀ a : Int, INT64_MIN ≤ a → a ≤ INT64_MAX →
        xpc_dictionary_get_value d "a" = some (.int64 a) →
        (∀ v, xpc_dictionary_get_value d "b" ≠ some (.int64 v)) →
        sends (hm self peer (.dictionary d)) =
          [(peer, { original := .dictionary d, content := [("result", .int64 a)] })]) ∧
      (∀ b : Int, INT64_MIN ≤ b → b ≤ INT64_MAX →
        (∀ v, xpc_dictionary_get_value d "a" ≠ some (.int64 v)) →
        xpc_dictionary_get_value d "b" = some (.int64 b) →
        sends (hm self peer (.dictionary d)) =
          [(peer, { original := .dictionary d, content := [("result", .int64 b)] })]) ∧
      ((∀ v, xpc_dictionary_get_value d "a" ≠ some (.int64 v)) →
        (∀ v, xpc_dictionary_get_value d "b" ≠ some (.int64 v)) →
        sends (hm self peer (.dictionary d)) =
          [(peer, { original := .dictionary d, content := [("result", .int64 0)] })]) := by
  intro hm hmem
  have hsent := sends_add self peer d htype hm hmem
  refine ⟨fun a hlo hhi ha hb => ?_, fun b hlo hhi ha hb => ?_, fun ha hb => ?_⟩
  · rw [hsent, get_int64_of_value _ _ _ ha, get_int64_of_no_int _ _ hb, add_zero,
      wrap64_of_range a hlo hhi]
  · rw [hsent, get_int64_of_no_int _ _ ha, get_int64_of_value _ _ _ hb, zero_add,
      wrap64_of_range b hlo hhi]
  · rw [hsent, get_int64_of_no_int _ _ ha, get_int64_of_no_int _ _ hb]
    rfl

/-- Witness of C20: "a" = -7 without "b", "b" = 9 with a string under "a", and an add
request with no operand at all. -/
theorem add_missing_operand_is_zero_witness :
    sends (service.handle_message ⟨100, 1⟩ ⟨7, 200⟩
        (.dictionary [("type", .string "add"), ("a", .int64 (-7))])) =
      [(⟨7, 200⟩, Reply.mk (.dictionary [("type", .string "add"), ("a", .int64 (-7))])
        [("result", .int64 (-7))])] ∧
    sends (xpc_service.handle_message ⟨100, 1⟩ ⟨7, 200⟩
        (.dictionary [("type", .string "add"), ("a", .string "x"), ("b", .int64 9)])) =
      [(⟨7, 200⟩, Reply.mk
        (.dictionary [("type", .string "add"), ("a", .string "x"), ("b", .int64 9)])
        [("result", .int64 9)])] ∧
    sends (demo.handle_message ⟨100, 1⟩ ⟨7, 200⟩
        (.dictionary [("type", .string "add")])) =
      [(⟨7, 200⟩, Reply.mk (.dictionary [("type", .string "add")])
        [("result", .int64 0)])] :=
  ⟨(add_missing_operand_is_zero ⟨100, 1⟩ ⟨7, 200⟩
      [("type", .string "add"), ("a", .int64 (-7))] (by decide)
      service.handle_message (by simp [handlers])).1 (-7) (by decide) (by decide)
      (by simp [xpc_dictionary_get_value]) (fun v => by simp [xpc_dictionary_get_value]),
   (add_missing_operand_is_zero ⟨100, 1⟩ ⟨7, 200⟩
      [("type", .string "add"), ("a", .string "x"), ("b", .int64 9)] (by decide)
      xpc_service.handle_message (by simp [handlers])).2.1 9 (by decide) (by decide)
      (fun v => by simp [xpc_dictionary_get_value]) (by simp [xpc_dictionary_get_value]),
   (add_missing_operand_is_zero ⟨100, 1⟩ ⟨7, 200⟩
      [("type", .string "add")] (by decide)
      demo.handle_message (by simp [handlers])).2.2
      (fun v => by simp [xpc_dictionary_get_value])
      (fun v => by simp [xpc_dictionary_get_value])⟩

/-! ## The printing clients against the replies of the service -/

theorem round_trip_shape (self : Proc) (peer connection : Connection) (d : Dict)
    (t : String) (htype : xpc_dictionary_get_string d "type" = some t) :
    ∀ hm ∈ handlers, ∃ content : Dict,
      round_trip hm self peer connection (.dictionary d) = .ok content ∧
      ((∃ r, content = [("response", .string r)]) ∨
        (∃ e, content = [("error", .string e)]) ∨
        (∃ r, content = [("result", .int64 r)]) ∨
        content = [("pid", .int64 self.pid), ("ppid", .int64 self.ppid),
          ("status", .string "running")]) := by
  intro hm hmem
  simp only [handlers, List.mem_cons, List.mem_singleton, List.not_mem_nil, or_false] at hmem
  by_cases hping : t = "ping"
  · subst hping
    rcases hmem with rfl | rfl | rfl | rfl <;>
      simp [round_trip, service.handle_message, demo.handle_message, demo_simple.handle_message,
      xpc_service.handle_message, sends, until_exit, Reply.set_string, Reply.set_int64,
      xpc_dictionary_create_reply, xpc_dictionary_set_string, xpc_dictionary_set_int64,
      xpc_dictionary_set_value, htype]
  by_cases hecho : t = "echo"
  · subst hecho
    cases hdata : xpc_dictionary_get_string d "data" <;>
    rcases hmem with rfl | rfl | rfl | rfl <;>
      simp [round_trip, service.handle_message, demo.handle_message, demo_simple.handle_message,
      xpc_service.handle_message, sends, until_exit, Reply.set_string, Reply.set_int64,
      xpc_dictionary_create_reply, xpc_dictionary_set_string, xpc_dictionary_set_int64,
      xpc_dictionary_set_value, htype, hdata]
  by_cases hadd : t = "add"
  · subst hadd
    rcases hmem with rfl | rfl | rfl | rfl <;>
      simp [round_trip, service.handle_message, demo.handle_message, demo_simple.handle_message,
      xpc_service.handle_message, sends, until_exit, Reply.set_string, Reply.set_int64,
      xpc_dictionary_create_reply, xpc_dictionary_set_string, xpc_dictionary_set_int64,
      xpc_dictionary_set_value, htype]
  by_cases hinfo : t = "info"
  · subst hinfo
    rcases hmem with rfl | rfl | rfl | rfl <;>
      simp [round_trip, service.handle_message, demo.handle_message, demo_simple.handle_message,
      xpc_service.handle_message, sends, until_exit, Reply.set_string, Reply.set_int64,
      xpc_dictionary_create_reply, xpc_dictionary_set_string, xpc_dictionary_set_int64,
      xpc_dictionary_set_value, htype]
  by_cases hshut : t = "shutdown"
  · subst hshut
    rcases hmem with rfl | rfl | rfl | rfl <;>
      simp [round_trip, service.handle_message, demo.handle_message, demo_simple.handle_message,
      xpc_service.handle_message, sends, until_exit, Reply.set_string, Reply.set_int64,
      xpc_dictionary_create_reply, xpc_dictionary_set_string, xpc_dictionary_set_int64,
      xpc_dictionary_set_value, htype]
  · rcases hmem with rfl | rfl | rfl | rfl <;>
      simp [round_trip, service.handle_message, demo.handle_message, demo_simple.handle_message,
      xpc_service.handle_message, sends, until_exit, Reply.set_string, Reply.set_int64,
      xpc_dictionary_create_reply, xpc_dictionary_set_string, xpc_dictionary_set_int64,
      xpc_dictionary_set_value, htype, hping, hecho, hadd, hinfo, hshut]

/-- C21: `send_and_print`, in `xpc_app.c` and in `demo_simple.c`, puts every reply
of the service handler on its matching line. A reply with a string under "response"
prints the response line; a reply with no "response" and a string under "error" prints
the error line; a reply `result = r` prints the result line for every `r`, 0 included;
an info reply prints the pid and status line when the pid is not 0; an error object
from the transport is reported as an error, and what is reported depends on the error
object alone. Every reply a copy of `handle_message` sends has one of these four shapes. -/
theorem send_and_print_classifies
    (reply_sync : Connection → XpcObject → Except XpcError Dict) (conn : Connection)
    (message : XpcObject) (desc : String) :
    (∀ (reply : Dict) (r : String), reply_sync conn message = .ok reply →
        xpc_dictionary_get_string reply "response" = some r →
          xpc_app.send_and_print reply_sync conn message desc =
            [.stdout ("[Client] Sending: " ++ desc ++ "\n"),
              .send_message_with_reply_sync conn message,
              .stdout ("[Client] Response: " ++ r ++ "\n"),
              .stdout "\n",
              .release { original := message, content := reply }] ∧
          demo_simple.send_and_print reply_sync conn message desc =
            [.stdout ("[Client] Sending: " ++ desc ++ "\n"),
              .send_message_with_reply_sync conn message,
              .stdout ("[Client] Response: " ++ r ++ "\n"),
              .stdout "\n"]) ∧
    (∀ (reply : Dict) (e : String), reply_sync conn message = .ok reply →
        xpc_dictionary_get_string reply "response" = none →
        xpc_dictionary_get_string reply "error" = some e →
          xpc_app.send_and_print reply_sync conn message desc =
            [.stdout ("[Client] Sending: " ++ desc ++ "\n"),
              .send_message_with_reply_sync conn message,
              .stderr ("[Client] Error: " ++ e ++ "\n"),
              .stdout "\n",
              .release { original := message, content := reply }] ∧
          demo_simple.send_and_print reply_sync conn message desc =
            [.stdout ("[Client] Sending: " ++ desc ++ "\n"),
              .send_message_with_reply_sync conn message,
              .stderr ("[Client] Error: " ++ e ++ "\n"),
              .stdout "\n"]) ∧
    (∀ r : Int, reply_sync conn message = .ok [("result", .int64 r)] →
          xpc_app.send_and_print reply_sync conn message desc =
            [.stdout ("[Client] Sending: " ++ desc ++ "\n"),
              .send_message_with_reply_sync conn message,
              .stdout ("[Client] Result: " ++ toString r ++ "\n"),
              .stdout "\n",
              .release { original := message, content := [("result", .int64 r)] }] ∧
          demo_simple.send_and_print reply_sync conn message desc =
            [.stdout ("[Client] Sending: " ++ desc ++ "\n"),
              .send_message_with_reply_sync conn message,
              .stdout ("[Client] Result: " ++ toString r ++ "\n"),
              .stdout "\n"]) ∧
    (∀ p pp : Int, p ≠ 0 →
        reply_sync conn message = .ok [("pid", .int64 p), ("ppid", .int64 pp), ("status", .string "running")] →
          xpc_app.send_and_print reply_sync conn message desc =
            [.stdout ("[Client] Sending: " ++ desc ++ "\n"),
              .send_message_with_reply_sync conn message,
              .stdout ("[Client] Service PID: " ++ toString p ++ ", PPID: " ++ toString pp
                ++ ", Status: " ++ "running" ++ "\n"),
              .stdout "\n",
              .release { original := message, content := [("pid", .int64 p), ("ppid", .int64 pp), ("status", .string "running")] }] ∧
          demo_simple.send_and_print reply_sync conn message desc =
            [.stdout ("[Client] Sending: " ++ desc ++ "\n"),
              .send_message_with_reply_sync conn message,
              .stdout ("[Client] Service PID: " ++ toString p ++ ", Status: " ++ "running"
                ++ "\n"),
              .stdout "\n"]) ∧
    (∀ e : XpcError, reply_sync conn message = .error e →
          xpc_app.send_and_print reply_sync conn message desc =
            [.stdout ("[Client] Sending: " ++ desc ++ "\n"),
              .send_message_with_reply_sync conn message,
              .stderr (if e = .connectionInvalid then "[Client] Error: Connection invalid\n"
                else if e = .connectionInterrupted then
                  "[Client] Error: Connection interrupted\n"
                else "[Client] Error: Request failed\n"),
              .stdout "\n"] ∧
          demo_simple.send_and_print reply_sync conn message desc =
            [.stdout ("[Client] Sending: " ++ desc ++ "\n"),
              .send_message_with_reply_sync conn message,
              .print_xpc_error "Client" e,
              .stdout "\n"]) ∧
    (∀ hm ∈ handlers, ∀ (self : Proc) (peer : Connection) (d : Dict) (t : String),
        xpc_dictionary_get_string d "type" = some t →
        ∃ content : Dict,
          round_trip hm self peer conn (.dictionary d) = .ok content ∧
          ((∃ r, content = [("response", .string r)]) ∨
            (∃ e, content = [("error", .string e)]) ∨
            (∃ r, content = [("result", .int64 r)]) ∨
            content = [("pid", .int64 self.pid), ("ppid", .int64 self.ppid),
              ("status", .string "running")])) := by
  refine ⟨fun reply r hreply hresponse => ?_, fun reply e hreply hresponse herror => ?_,
    fun r hreply => ?_, fun p pp hp hreply => ?_, fun e hreply => ?_,
    fun hm hmem self peer d t htype => round_trip_shape self peer conn d t htype hm hmem⟩
  · simp [xpc_app.send_and_print, demo_simple.send_and_print, hreply, hresponse]
  · simp [xpc_app.send_and_print, demo_simple.send_and_print, hreply, hresponse, herror]
  · simp [xpc_app.send_and_print, demo_simple.send_and_print, hreply,
      xpc_dictionary_get_string, xpc_dictionary_get_int64, xpc_dictionary_get_value]
  · simp [xpc_app.send_and_print, demo_simple.send_and_print, hreply,
      xpc_dictionary_get_string, xpc_dictionary_get_int64, xpc_dictionary_get_value, hp]
  · simp only [xpc_app.send_and_print, demo_simple.send_and_print, hreply]
    split_ifs <;> simp

/-- Witness of C21: the add request 0 + 0 answered by the handler of `service.c`,
whose reply `result = 0` is printed as a result, and a request on a connection that
has become invalid. -/
theorem send_and_print_classifies_witness :
    (xpc_app.send_and_print (round_trip service.handle_message ⟨100, 1⟩ ⟨7, 200⟩) ⟨3, 100⟩
        (.dictionary (client.send_add_message 0 0)) "add 0 + 0" =
      [.stdout ("[Client] Sending: " ++ "add 0 + 0" ++ "\n"),
        .send_message_with_reply_sync ⟨3, 100⟩ (.dictionary (client.send_add_message 0 0)),
        .stdout ("[Client] Result: " ++ toString (0 : Int) ++ "\n"),
        .stdout "\n",
        .release (Reply.mk (.dictionary (client.send_add_message 0 0))
          [("result", .int64 0)])] ∧
     demo_simple.send_and_print (round_trip service.handle_message ⟨100, 1⟩ ⟨7, 200⟩)
        ⟨3, 100⟩ (.dictionary (client.send_add_message 0 0)) "add 0 + 0" =
      [.stdout ("[Client] Sending: " ++ "add 0 + 0" ++ "\n"),
        .send_message_with_reply_sync ⟨3, 100⟩ (.dictionary (client.send_add_message 0 0)),
        .stdout ("[Client] Result: " ++ toString (0 : Int) ++ "\n"),
        .stdout "\n"]) ∧
    demo_simple.send_and_print (fun _ _ => .error .connectionInvalid) ⟨3, 100⟩
        (.dictionary client.send_ping_message) "ping" =
      [.stdout ("[Client] Sending: " ++ "ping" ++ "\n"),
        .send_message_with_reply_sync ⟨3, 100⟩ (.dictionary client.send_ping_message),
        .print_xpc_error "Client" .connectionInvalid,
        .stdout "\n"] :=
  ⟨(send_and_print_classifies (round_trip service.handle_message ⟨100, 1⟩ ⟨7, 200⟩)
      ⟨3, 100⟩ (.dictionary (client.send_add_message 0 0)) "add 0 + 0").2.2.1 0
      (round_trip_add ⟨100, 1⟩ ⟨7, 200⟩ ⟨3, 100⟩ 0 0 service.handle_message
        (by simp [handlers])),
   ((send_and_print_classifies (fun _ _ => .error .connectionInvalid) ⟨3, 100⟩
      (.dictionary client.send_ping_message) "ping").2.2.2.2.1 .connectionInvalid rfl).2⟩

end XPCDemo
